import Mathlib

/-!
# Verification of `stream/webrtc.go`

A shallow embedding of `findCodecOfType` and `WebRTCStreamer.Setup`.

The file wraps the third-party package `github.com/pion/webrtc/v2`.  None of that
package is part of the repository, so every call into it is a parameter of the
embedding: the record `Lib` holds one function per library call, each threading
an arbitrary library state `σ`.  The calls `Setup` makes are recorded, in order
and with their results, in a trace of `Event`s, so that statements such as
"`NewTrack` is not invoked" can be made.
-/

set_option autoImplicit false

/-! ## Data model -/

/-- A Go `error` value, identified by its message. -/
structure GoError where
  msg : String
  deriving DecidableEq, Repr

/-- Go `errors.New`. -/
def errors.New (text : String) : GoError := ⟨text⟩

/-- The library type `webrtc.RTPCodecType`, with its two named values. -/
inductive RTPCodecType where
  | RTPCodecTypeAudio
  | RTPCodecTypeVideo
  deriving DecidableEq, Repr

/-- The fields of `webrtc.RTPCodec` that the source reads. -/
structure RTPCodec where
  Name : String
  PayloadType : Nat
  deriving DecidableEq, Repr

/-- The library type `webrtc.MediaEngine`.  The source only ever asks it for its
codecs of one kind, so it is represented by that enumeration. -/
structure MediaEngine where
  GetCodecsByKind : RTPCodecType → List RTPCodec

/-- The zero value `webrtc.MediaEngine{}`: an engine holding no codec. -/
def MediaEngine.zero : MediaEngine := ⟨fun _ => []⟩

/-! ## `findCodecOfType` -/

/-- The `for _, codec := range codecs` loop of `findCodecOfType`: the first codec
whose `Name` equals `codecName`, if any. -/
def findCodecOfType.loop (codecName : String) : List RTPCodec → Option RTPCodec
  | [] => none
  | codec :: rest =>
    if codec.Name == codecName then some codec else findCodecOfType.loop codecName rest

/-- `findCodecOfType` of `stream/webrtc.go`. -/
def findCodecOfType (mediaEngine : MediaEngine) (kind : RTPCodecType) (codecName : String) :
    Except GoError RTPCodec :=
  let codecs := mediaEngine.GetCodecsByKind kind
  match findCodecOfType.loop codecName codecs with
  | some codec => .ok codec
  | none => .error (errors.New ("No codec of type " ++ codecName ++ " found"))

/-! ## The wrapped library -/

/-- The library type `webrtc.SessionDescription` (an SDP type tag and the SDP text). -/
structure SessionDescription where
  SDPType : Nat
  SDP : String
  deriving DecidableEq, Repr

/-- The library type `webrtc.ICEServer`. -/
structure ICEServer where
  URLs : List String
  deriving DecidableEq, Repr

/-- The library type `webrtc.Configuration`. -/
structure Configuration where
  ICEServers : List ICEServer
  deriving DecidableEq, Repr

/-- The library type `webrtc.API`, as built by
`webrtc.NewAPI(webrtc.WithMediaEngine(mediaEngine))`. -/
structure API where
  mediaEngine : MediaEngine

/-- The call `webrtc.NewAPI(webrtc.WithMediaEngine(mediaEngine))`. -/
def webrtc.NewAPI (mediaEngine : MediaEngine) : API := ⟨mediaEngine⟩

/-- A non-nil `*webrtc.PeerConnection`, identified by a handle. -/
structure PeerConnection where
  handle : Nat
  deriving DecidableEq, Repr

/-- A non-nil `*webrtc.Track`, identified by a handle. -/
structure Track where
  handle : Nat
  deriving DecidableEq, Repr

/-- The field of the connection statistics that the source reads. -/
structure PeerConnectionStats where
  ID : String
  deriving DecidableEq, Repr

/-- The library type `webrtc.ICEConnectionState`, an integer type: every integer
is a possible state value, known to the library or not. -/
abbrev ICEConnectionState := Int

/-- The library type `webrtc.RTPTransceiverDirection`. -/
inductive RTPTransceiverDirection where
  | RTPTransceiverDirectionSendrecv
  | RTPTransceiverDirectionSendonly
  | RTPTransceiverDirectionRecvonly
  | RTPTransceiverDirectionInactive
  deriving DecidableEq, Repr

/-- The library type `webrtc.RtpTransceiverInit`. -/
structure RtpTransceiverInit where
  Direction : RTPTransceiverDirection
  deriving DecidableEq, Repr

/-- The calls `Setup` makes into the wrapped library (and into `math/rand`), as
functions of an arbitrary library state `σ`.  A call that returns `(value, error)`
in Go returns `Except` here: a value with a nil error, or an error with a nil
value.  `ICEConnectionStateString` is the method `ICEConnectionState.String`;
`H264` and `Opus` are the package constants `webrtc.H264` and `webrtc.Opus`, the
fixed preferred codec names, whose declarations are in the library; their values
there are `"H264"` and `"opus"`.
`OnICEConnectionStateChange` stores the callback for later, asynchronous use; the
callback itself is kept in the trace. -/
structure Lib (σ : Type) where
  PopulateFromSDP : MediaEngine → SessionDescription → σ → (MediaEngine × Option GoError) × σ
  NewPeerConnection : API → Configuration → σ → Except GoError PeerConnection × σ
  GetConnectionStats : PeerConnection → σ → (PeerConnectionStats × Bool) × σ
  OnICEConnectionStateChange : PeerConnection → σ → σ
  Uint32 : σ → Nat × σ
  NewTrack : PeerConnection → Nat → Nat → String → String → σ → Except GoError Track × σ
  AddTransceiverFromTrack : PeerConnection → Track → RtpTransceiverInit → σ → Option GoError × σ
  SetRemoteDescription : PeerConnection → SessionDescription → σ → Option GoError × σ
  CreateAnswer : PeerConnection → σ → Except GoError SessionDescription × σ
  SetLocalDescription : PeerConnection → SessionDescription → σ → Option GoError × σ
  ICEConnectionStateString : ICEConnectionState → String
  H264 : String
  Opus : String

/-- One call made by `Setup`, with its arguments and its result.  The callback
handed to `OnICEConnectionStateChange` is recorded as the function from a state
value to the line it logs. -/
inductive Event where
  | PopulateFromSDP (offer : SessionDescription) (err : Option GoError)
  | NewPeerConnection (config : Configuration) (res : Except GoError PeerConnection)
  | GetConnectionStats (pc : PeerConnection) (stats : PeerConnectionStats) (ok : Bool)
  | OnICEConnectionStateChange (pc : PeerConnection) (f : ICEConnectionState → String)
  | findCodecOfType (kind : RTPCodecType) (codecName : String) (res : Except GoError RTPCodec)
  | Uint32 (value : Nat)
  | NewTrack (pc : PeerConnection) (payloadType ssrc : Nat) (id label : String)
      (res : Except GoError Track)
  | AddTransceiverFromTrack (pc : PeerConnection) (track : Track) (init : RtpTransceiverInit)
      (res : Option GoError)
  | SetRemoteDescription (pc : PeerConnection) (offer : SessionDescription)
      (res : Option GoError)
  | CreateAnswer (pc : PeerConnection) (res : Except GoError SessionDescription)
  | SetLocalDescription (pc : PeerConnection) (answer : SessionDescription)
      (res : Option GoError)

/-! ## `WebRTCStreamer` and `Setup` -/

/-- `WebRTCStreamer` of `stream/webrtc.go`; `none` is a nil pointer. -/
structure WebRTCStreamer where
  peerConnection : Option PeerConnection
  VideoTrack : Option Track
  AudioTrack : Option Track
  deriving DecidableEq, Repr

/-- What a call of `Setup` leaves behind: the returned pair (`.error err` is
`(nil, err)`, `.ok answer` is `(&answer, nil)`), the streamer, the library state and
the calls made. -/
structure Outcome (σ : Type) where
  result : Except GoError SessionDescription
  m : WebRTCStreamer
  lib : σ
  trace : List Event

/-- The callback `Setup` registers with `OnICEConnectionStateChange`: the line it
hands to `log.Printf` for a state value. -/
def observer {σ : Type} (lib : Lib σ) (stats : PeerConnectionStats)
    (connectionState : ICEConnectionState) : String :=
  "State of " ++ stats.ID ++ ": " ++ lib.ICEConnectionStateString connectionState ++ " \n"

/-- `WebRTCStreamer.Setup` of `stream/webrtc.go`. -/
def WebRTCStreamer.Setup {σ : Type} (lib : Lib σ) (m : WebRTCStreamer)
    (offer : SessionDescription) (s : σ) : Outcome σ :=
  let config : Configuration := ⟨[⟨["stun:stun.l.google.com:19302"]⟩]⟩
  let populated := lib.PopulateFromSDP MediaEngine.zero offer s
  let mediaEngine := populated.1.1
  let t := [Event.PopulateFromSDP offer populated.1.2]
  let api := webrtc.NewAPI mediaEngine
  match lib.NewPeerConnection api config populated.2 with
  | (.error err, s) =>
    ⟨.error err, { m with peerConnection := none }, s,
      t ++ [.NewPeerConnection config (.error err)]⟩
  | (.ok pc, s) =>
    let m := { m with peerConnection := some pc }
    let t := t ++ [.NewPeerConnection config (.ok pc)]
    let looked := lib.GetConnectionStats pc s
    let ok := looked.1.2
    let stats : PeerConnectionStats :=
      if !ok then { looked.1.1 with ID := "unknoown" } else looked.1.1
    let t := t ++ [.GetConnectionStats pc looked.1.1 ok]
    let s := lib.OnICEConnectionStateChange pc looked.2
    let t := t ++ [.OnICEConnectionStateChange pc (observer lib stats)]
    -- Create a video track
    match findCodecOfType mediaEngine .RTPCodecTypeVideo lib.H264 with
    | .error err =>
      ⟨.error err, m, s, t ++ [.findCodecOfType .RTPCodecTypeVideo lib.H264 (.error err)]⟩
    | .ok videoCodec =>
      let t := t ++ [.findCodecOfType .RTPCodecTypeVideo lib.H264 (.ok videoCodec)]
      let ssrc := lib.Uint32 s
      let t := t ++ [.Uint32 ssrc.1]
      match lib.NewTrack pc videoCodec.PayloadType ssrc.1 "video" "video" ssrc.2 with
      | (.error err, s) =>
        ⟨.error err, { m with VideoTrack := none }, s,
          t ++ [.NewTrack pc videoCodec.PayloadType ssrc.1 "video" "video" (.error err)]⟩
      | (.ok videoTrack, s) =>
        let m := { m with VideoTrack := some videoTrack }
        let t := t ++ [.NewTrack pc videoCodec.PayloadType ssrc.1 "video" "video" (.ok videoTrack)]
        match lib.AddTransceiverFromTrack pc videoTrack
            ⟨.RTPTransceiverDirectionSendonly⟩ s with
        | (some err, s) =>
          ⟨.error err, m, s,
            t ++ [.AddTransceiverFromTrack pc videoTrack ⟨.RTPTransceiverDirectionSendonly⟩
              (some err)]⟩
        | (none, s) =>
          let t := t ++ [.AddTransceiverFromTrack pc videoTrack
            ⟨.RTPTransceiverDirectionSendonly⟩ none]
          -- Create a audio track
          match findCodecOfType mediaEngine .RTPCodecTypeAudio lib.Opus with
          | .error err =>
            ⟨.error err, m, s, t ++ [.findCodecOfType .RTPCodecTypeAudio lib.Opus (.error err)]⟩
          | .ok audioCodec =>
            let t := t ++ [.findCodecOfType .RTPCodecTypeAudio lib.Opus (.ok audioCodec)]
            let ssrc := lib.Uint32 s
            let t := t ++ [.Uint32 ssrc.1]
            match lib.NewTrack pc audioCodec.PayloadType ssrc.1 "audio" "audio" ssrc.2 with
            | (.error err, s) =>
              ⟨.error err, { m with AudioTrack := none }, s,
                t ++ [.NewTrack pc audioCodec.PayloadType ssrc.1 "audio" "audio" (.error err)]⟩
            | (.ok audioTrack, s) =>
              let m := { m with AudioTrack := some audioTrack }
              let t := t ++ [.NewTrack pc audioCodec.PayloadType ssrc.1 "audio" "audio"
                (.ok audioTrack)]
              match lib.AddTransceiverFromTrack pc audioTrack
                  ⟨.RTPTransceiverDirectionSendonly⟩ s with
              | (some err, s) =>
                ⟨.error err, m, s,
                  t ++ [.AddTransceiverFromTrack pc audioTrack
                    ⟨.RTPTransceiverDirectionSendonly⟩ (some err)]⟩
              | (none, s) =>
                let t := t ++ [.AddTransceiverFromTrack pc audioTrack
                  ⟨.RTPTransceiverDirectionSendonly⟩ none]
                -- Set the remote SessionDescription
                match lib.SetRemoteDescription pc offer s with
                | (some err, s) =>
                  ⟨.error err, m, s, t ++ [.SetRemoteDescription pc offer (some err)]⟩
                | (none, s) =>
                  let t := t ++ [.SetRemoteDescription pc offer none]
                  -- Create an answer
                  match lib.CreateAnswer pc s with
                  | (.error err, s) =>
                    ⟨.error err, m, s, t ++ [.CreateAnswer pc (.error err)]⟩
                  | (.ok answer, s) =>
                    let t := t ++ [.CreateAnswer pc (.ok answer)]
                    -- Sets the LocalDescription, and starts our UDP listeners
                    match lib.SetLocalDescription pc answer s with
                    | (some err, s) =>
                      ⟨.error err, m, s, t ++ [.SetLocalDescription pc answer (some err)]⟩
                    | (none, s) =>
                      ⟨.ok answer, m, s, t ++ [.SetLocalDescription pc answer none]⟩

/-! ## Reading a trace -/

/-- Which call an event records; codec resolutions carry the kind asked for and
track creations the label. -/
inductive Call where
  | PopulateFromSDP
  | NewPeerConnection
  | GetConnectionStats
  | OnICEConnectionStateChange
  | findCodecOfType (kind : RTPCodecType)
  | Uint32
  | NewTrack (label : String)
  | AddTransceiverFromTrack
  | SetRemoteDescription
  | CreateAnswer
  | SetLocalDescription
  deriving DecidableEq, Repr

/-- The call an event records. -/
def Event.call : Event → Call
  | .PopulateFromSDP _ _ => .PopulateFromSDP
  | .NewPeerConnection _ _ => .NewPeerConnection
  | .GetConnectionStats _ _ _ => .GetConnectionStats
  | .OnICEConnectionStateChange _ _ => .OnICEConnectionStateChange
  | .findCodecOfType kind _ _ => .findCodecOfType kind
  | .Uint32 _ => .Uint32
  | .NewTrack _ _ _ _ label _ => .NewTrack label
  | .AddTransceiverFromTrack _ _ _ _ => .AddTransceiverFromTrack
  | .SetRemoteDescription _ _ _ => .SetRemoteDescription
  | .CreateAnswer _ _ => .CreateAnswer
  | .SetLocalDescription _ _ _ => .SetLocalDescription

/-- The error of a Go result pair `(value, error)`, nil when the call succeeded. -/
def Except.goError {α : Type} : Except GoError α → Option GoError
  | .error err => some err
  | .ok _ => none

/-- The error with which a step failed, if the event records the failure of one of
the steps connection creation, codec resolution, track creation, transceiver
attachment, `SetRemoteDescription`, `CreateAnswer`, `SetLocalDescription`.  The
error result of `PopulateFromSDP` and a statistics lookup without identifier are
not failures of a step. -/
def Event.failure : Event → Option GoError
  | .PopulateFromSDP _ _ => none
  | .NewPeerConnection _ res => res.goError
  | .GetConnectionStats _ _ _ => none
  | .OnICEConnectionStateChange _ _ => none
  | .findCodecOfType _ _ res => res.goError
  | .Uint32 _ => none
  | .NewTrack _ _ _ _ _ res => res.goError
  | .AddTransceiverFromTrack _ _ _ res => res
  | .SetRemoteDescription _ _ res => res
  | .CreateAnswer _ res => res.goError
  | .SetLocalDescription _ _ res => res

/-- The order of the calls in the body of `Setup`: parse, connection creation,
statistics lookup, observer registration, then for video and for audio codec
resolution, `rand.Uint32`, track creation and transceiver attachment, then
`SetRemoteDescription`, `CreateAnswer`, `SetLocalDescription`. -/
def SetupCalls : List Call :=
  [.PopulateFromSDP, .NewPeerConnection, .GetConnectionStats, .OnICEConnectionStateChange,
   .findCodecOfType .RTPCodecTypeVideo, .Uint32, .NewTrack "video", .AddTransceiverFromTrack,
   .findCodecOfType .RTPCodecTypeAudio, .Uint32, .NewTrack "audio", .AddTransceiverFromTrack,
   .SetRemoteDescription, .CreateAnswer, .SetLocalDescription]

/-- The transceivers attached during a trace: the `AddTransceiverFromTrack` calls
that returned no error, in order. -/
def transceivers : List Event → List (PeerConnection × Track × RtpTransceiverInit)
  | [] => []
  | .AddTransceiverFromTrack pc track init none :: rest => (pc, track, init) :: transceivers rest
  | _ :: rest => transceivers rest

/-! ## The paths through `Setup` -/

/-- The configuration literal built at the top of `Setup`. -/
def setupConfig : Configuration := ⟨[⟨["stun:stun.l.google.com:19302"]⟩]⟩

/-- The eleven ways through the body of `Setup`, one per `return`: the results of
the calls made on the way, and the outcome they lead to.  `Setup_run` shows that
every call of `Setup` follows one of them. -/
inductive SetupRun {σ : Type} (lib : Lib σ) (m : WebRTCStreamer) (offer : SessionDescription)
    (s : σ) : Outcome σ → Prop where
  | newPeerConnection
      {mediaEngine : MediaEngine} {perr : Option GoError} {s1 : σ} {err : GoError} {s2 : σ}
      (hpop : lib.PopulateFromSDP MediaEngine.zero offer s = ((mediaEngine, perr), s1))
      (hpc : lib.NewPeerConnection (webrtc.NewAPI mediaEngine) setupConfig s1 = (.error err, s2))
      : SetupRun lib m offer s
        ⟨.error err, ⟨none, m.VideoTrack, m.AudioTrack⟩, s2,
          [.PopulateFromSDP offer perr,
           .NewPeerConnection setupConfig (.error err)]⟩
  | videoCodec
      {mediaEngine : MediaEngine} {perr : Option GoError} {s1 : σ} {pc : PeerConnection}
      {s2 : σ} {stats : PeerConnectionStats} {ok : Bool} {s3 : σ} {err : GoError}
      (hpop : lib.PopulateFromSDP MediaEngine.zero offer s = ((mediaEngine, perr), s1))
      (hpc : lib.NewPeerConnection (webrtc.NewAPI mediaEngine) setupConfig s1 = (.ok pc, s2))
      (hstats : lib.GetConnectionStats pc s2 = ((stats, ok), s3))
      (hvcodec : findCodecOfType mediaEngine .RTPCodecTypeVideo lib.H264 = .error err)
      : SetupRun lib m offer s
        ⟨.error err, ⟨some pc, m.VideoTrack, m.AudioTrack⟩, (lib.OnICEConnectionStateChange
            pc s3),
          [.PopulateFromSDP offer perr,
           .NewPeerConnection setupConfig (.ok pc),
           .GetConnectionStats pc stats ok,
           .OnICEConnectionStateChange pc
             (observer lib (if !ok then { stats with ID := "unknoown" } else stats)),
           .findCodecOfType .RTPCodecTypeVideo lib.H264 (.error err)]⟩
  | videoTrack
      {mediaEngine : MediaEngine} {perr : Option GoError} {s1 : σ} {pc : PeerConnection}
      {s2 : σ} {stats : PeerConnectionStats} {ok : Bool} {s3 : σ} {videoCodec : RTPCodec}
      {vssrc : Nat} {s5 : σ} {err : GoError} {s6 : σ}
      (hpop : lib.PopulateFromSDP MediaEngine.zero offer s = ((mediaEngine, perr), s1))
      (hpc : lib.NewPeerConnection (webrtc.NewAPI mediaEngine) setupConfig s1 = (.ok pc, s2))
      (hstats : lib.GetConnectionStats pc s2 = ((stats, ok), s3))
      (hvcodec : findCodecOfType mediaEngine .RTPCodecTypeVideo lib.H264 = .ok videoCodec)
      (hvssrc : lib.Uint32 (lib.OnICEConnectionStateChange pc s3) = (vssrc, s5))
      (hvtrack : lib.NewTrack pc videoCodec.PayloadType vssrc "video" "video" s5 = (.error
          err, s6))
      : SetupRun lib m offer s
        ⟨.error err, ⟨some pc, none, m.AudioTrack⟩, s6,
          [.PopulateFromSDP offer perr,
           .NewPeerConnection setupConfig (.ok pc),
           .GetConnectionStats pc stats ok,
           .OnICEConnectionStateChange pc
             (observer lib (if !ok then { stats with ID := "unknoown" } else stats)),
           .findCodecOfType .RTPCodecTypeVideo lib.H264 (.ok videoCodec),
           .Uint32 vssrc,
           .NewTrack pc videoCodec.PayloadType vssrc "video" "video" (.error err)]⟩
  | videoTransceiver
      {mediaEngine : MediaEngine} {perr : Option GoError} {s1 : σ} {pc : PeerConnection}
      {s2 : σ} {stats : PeerConnectionStats} {ok : Bool} {s3 : σ} {videoCodec : RTPCodec}
      {vssrc : Nat} {s5 : σ} {videoTrack : Track} {s6 : σ} {err : GoError} {s7 : σ}
      (hpop : lib.PopulateFromSDP MediaEngine.zero offer s = ((mediaEngine, perr), s1))
      (hpc : lib.NewPeerConnection (webrtc.NewAPI mediaEngine) setupConfig s1 = (.ok pc, s2))
      (hstats : lib.GetConnectionStats pc s2 = ((stats, ok), s3))
      (hvcodec : findCodecOfType mediaEngine .RTPCodecTypeVideo lib.H264 = .ok videoCodec)
      (hvssrc : lib.Uint32 (lib.OnICEConnectionStateChange pc s3) = (vssrc, s5))
      (hvtrack : lib.NewTrack pc videoCodec.PayloadType vssrc "video" "video" s5 = (.ok
          videoTrack, s6))
      (hvadd : lib.AddTransceiverFromTrack pc videoTrack ⟨.RTPTransceiverDirectionSendonly⟩
          s6 = (some err, s7))
      : SetupRun lib m offer s
        ⟨.error err, ⟨some pc, some videoTrack, m.AudioTrack⟩, s7,
          [.PopulateFromSDP offer perr,
           .NewPeerConnection setupConfig (.ok pc),
           .GetConnectionStats pc stats ok,
           .OnICEConnectionStateChange pc
             (observer lib (if !ok then { stats with ID := "unknoown" } else stats)),
           .findCodecOfType .RTPCodecTypeVideo lib.H264 (.ok videoCodec),
           .Uint32 vssrc,
           .NewTrack pc videoCodec.PayloadType vssrc "video" "video" (.ok videoTrack),
           .AddTransceiverFromTrack pc videoTrack ⟨.RTPTransceiverDirectionSendonly⟩ (some err)]⟩
  | audioCodec
      {mediaEngine : MediaEngine} {perr : Option GoError} {s1 : σ} {pc : PeerConnection}
      {s2 : σ} {stats : PeerConnectionStats} {ok : Bool} {s3 : σ} {videoCodec : RTPCodec}
      {vssrc : Nat} {s5 : σ} {videoTrack : Track} {s6 s7 : σ} {err : GoError}
      (hpop : lib.PopulateFromSDP MediaEngine.zero offer s = ((mediaEngine, perr), s1))
      (hpc : lib.NewPeerConnection (webrtc.NewAPI mediaEngine) setupConfig s1 = (.ok pc, s2))
      (hstats : lib.GetConnectionStats pc s2 = ((stats, ok), s3))
      (hvcodec : findCodecOfType mediaEngine .RTPCodecTypeVideo lib.H264 = .ok videoCodec)
      (hvssrc : lib.Uint32 (lib.OnICEConnectionStateChange pc s3) = (vssrc, s5))
      (hvtrack : lib.NewTrack pc videoCodec.PayloadType vssrc "video" "video" s5 = (.ok
          videoTrack, s6))
      (hvadd : lib.AddTransceiverFromTrack pc videoTrack ⟨.RTPTransceiverDirectionSendonly⟩
          s6 = (none, s7))
      (hacodec : findCodecOfType mediaEngine .RTPCodecTypeAudio lib.Opus = .error err)
      : SetupRun lib m offer s
        ⟨.error err, ⟨some pc, some videoTrack, m.AudioTrack⟩, s7,
          [.PopulateFromSDP offer perr,
           .NewPeerConnection setupConfig (.ok pc),
           .GetConnectionStats pc stats ok,
           .OnICEConnectionStateChange pc
             (observer lib (if !ok then { stats with ID := "unknoown" } else stats)),
           .findCodecOfType .RTPCodecTypeVideo lib.H264 (.ok videoCodec),
           .Uint32 vssrc,
           .NewTrack pc videoCodec.PayloadType vssrc "video" "video" (.ok videoTrack),
           .AddTransceiverFromTrack pc videoTrack ⟨.RTPTransceiverDirectionSendonly⟩ none,
           .findCodecOfType .RTPCodecTypeAudio lib.Opus (.error err)]⟩
  | audioTrack
      {mediaEngine : MediaEngine} {perr : Option GoError} {s1 : σ} {pc : PeerConnection}
      {s2 : σ} {stats : PeerConnectionStats} {ok : Bool} {s3 : σ} {videoCodec : RTPCodec}
      {vssrc : Nat} {s5 : σ} {videoTrack : Track} {s6 s7 : σ} {audioCodec : RTPCodec}
      {assrc : Nat} {s8 : σ} {err : GoError} {s9 : σ}
      (hpop : lib.PopulateFromSDP MediaEngine.zero offer s = ((mediaEngine, perr), s1))
      (hpc : lib.NewPeerConnection (webrtc.NewAPI mediaEngine) setupConfig s1 = (.ok pc, s2))
      (hstats : lib.GetConnectionStats pc s2 = ((stats, ok), s3))
      (hvcodec : findCodecOfType mediaEngine .RTPCodecTypeVideo lib.H264 = .ok videoCodec)
      (hvssrc : lib.Uint32 (lib.OnICEConnectionStateChange pc s3) = (vssrc, s5))
      (hvtrack : lib.NewTrack pc videoCodec.PayloadType vssrc "video" "video" s5 = (.ok
          videoTrack, s6))
      (hvadd : lib.AddTransceiverFromTrack pc videoTrack ⟨.RTPTransceiverDirectionSendonly⟩
          s6 = (none, s7))
      (hacodec : findCodecOfType mediaEngine .RTPCodecTypeAudio lib.Opus = .ok audioCodec)
      (hassrc : lib.Uint32 s7 = (assrc, s8))
      (hatrack : lib.NewTrack pc audioCodec.PayloadType assrc "audio" "audio" s8 = (.error
          err, s9))
      : SetupRun lib m offer s
        ⟨.error err, ⟨some pc, some videoTrack, none⟩, s9,
          [.PopulateFromSDP offer perr,
           .NewPeerConnection setupConfig (.ok pc),
           .GetConnectionStats pc stats ok,
           .OnICEConnectionStateChange pc
             (observer lib (if !ok then { stats with ID := "unknoown" } else stats)),
           .findCodecOfType .RTPCodecTypeVideo lib.H264 (.ok videoCodec),
           .Uint32 vssrc,
           .NewTrack pc videoCodec.PayloadType vssrc "video" "video" (.ok videoTrack),
           .AddTransceiverFromTrack pc videoTrack ⟨.RTPTransceiverDirectionSendonly⟩ none,
           .findCodecOfType .RTPCodecTypeAudio lib.Opus (.ok audioCodec),
           .Uint32 assrc,
           .NewTrack pc audioCodec.PayloadType assrc "audio" "audio" (.error err)]⟩
  | audioTransceiver
      {mediaEngine : MediaEngine} {perr : Option GoError} {s1 : σ} {pc : PeerConnection}
      {s2 : σ} {stats : PeerConnectionStats} {ok : Bool} {s3 : σ} {videoCodec : RTPCodec}
      {vssrc : Nat} {s5 : σ} {videoTrack : Track} {s6 s7 : σ} {audioCodec : RTPCodec}
      {assrc : Nat} {s8 : σ} {audioTrack : Track} {s9 : σ} {err : GoError} {s10 : σ}
      (hpop : lib.PopulateFromSDP MediaEngine.zero offer s = ((mediaEngine, perr), s1))
      (hpc : lib.NewPeerConnection (webrtc.NewAPI mediaEngine) setupConfig s1 = (.ok pc, s2))
      (hstats : lib.GetConnectionStats pc s2 = ((stats, ok), s3))
      (hvcodec : findCodecOfType mediaEngine .RTPCodecTypeVideo lib.H264 = .ok videoCodec)
      (hvssrc : lib.Uint32 (lib.OnICEConnectionStateChange pc s3) = (vssrc, s5))
      (hvtrack : lib.NewTrack pc videoCodec.PayloadType vssrc "video" "video" s5 = (.ok
          videoTrack, s6))
      (hvadd : lib.AddTransceiverFromTrack pc videoTrack ⟨.RTPTransceiverDirectionSendonly⟩
          s6 = (none, s7))
      (hacodec : findCodecOfType mediaEngine .RTPCodecTypeAudio lib.Opus = .ok audioCodec)
      (hassrc : lib.Uint32 s7 = (assrc, s8))
      (hatrack : lib.NewTrack pc audioCodec.PayloadType assrc "audio" "audio" s8 = (.ok
          audioTrack, s9))
      (haadd : lib.AddTransceiverFromTrack pc audioTrack ⟨.RTPTransceiverDirectionSendonly⟩
          s9 = (some err, s10))
      : SetupRun lib m offer s
        ⟨.error err, ⟨some pc, some videoTrack, some audioTrack⟩, s10,
          [.PopulateFromSDP offer perr,
           .NewPeerConnection setupConfig (.ok pc),
           .GetConnectionStats pc stats ok,
           .OnICEConnectionStateChange pc
             (observer lib (if !ok then { stats with ID := "unknoown" } else stats)),
           .findCodecOfType .RTPCodecTypeVideo lib.H264 (.ok videoCodec),
           .Uint32 vssrc,
           .NewTrack pc videoCodec.PayloadType vssrc "video" "video" (.ok videoTrack),
           .AddTransceiverFromTrack pc videoTrack ⟨.RTPTransceiverDirectionSendonly⟩ none,
           .findCodecOfType .RTPCodecTypeAudio lib.Opus (.ok audioCodec),
           .Uint32 assrc,
           .NewTrack pc audioCodec.PayloadType assrc "audio" "audio" (.ok audioTrack),
           .AddTransceiverFromTrack pc audioTrack ⟨.RTPTransceiverDirectionSendonly⟩ (some err)]⟩
  | setRemoteDescription
      {mediaEngine : MediaEngine} {perr : Option GoError} {s1 : σ} {pc : PeerConnection}
      {s2 : σ} {stats : PeerConnectionStats} {ok : Bool} {s3 : σ} {videoCodec : RTPCodec}
      {vssrc : Nat} {s5 : σ} {videoTrack : Track} {s6 s7 : σ} {audioCodec : RTPCodec}
      {assrc : Nat} {s8 : σ} {audioTrack : Track} {s9 s10 : σ} {err : GoError} {s11 : σ}
      (hpop : lib.PopulateFromSDP MediaEngine.zero offer s = ((mediaEngine, perr), s1))
      (hpc : lib.NewPeerConnection (webrtc.NewAPI mediaEngine) setupConfig s1 = (.ok pc, s2))
      (hstats : lib.GetConnectionStats pc s2 = ((stats, ok), s3))
      (hvcodec : findCodecOfType mediaEngine .RTPCodecTypeVideo lib.H264 = .ok videoCodec)
      (hvssrc : lib.Uint32 (lib.OnICEConnectionStateChange pc s3) = (vssrc, s5))
      (hvtrack : lib.NewTrack pc videoCodec.PayloadType vssrc "video" "video" s5 = (.ok
          videoTrack, s6))
      (hvadd : lib.AddTransceiverFromTrack pc videoTrack ⟨.RTPTransceiverDirectionSendonly⟩
          s6 = (none, s7))
      (hacodec : findCodecOfType mediaEngine .RTPCodecTypeAudio lib.Opus = .ok audioCodec)
      (hassrc : lib.Uint32 s7 = (assrc, s8))
      (hatrack : lib.NewTrack pc audioCodec.PayloadType assrc "audio" "audio" s8 = (.ok
          audioTrack, s9))
      (haadd : lib.AddTransceiverFromTrack pc audioTrack ⟨.RTPTransceiverDirectionSendonly⟩
          s9 = (none, s10))
      (hremote : lib.SetRemoteDescription pc offer s10 = (some err, s11))
      : SetupRun lib m offer s
        ⟨.error err, ⟨some pc, some videoTrack, some audioTrack⟩, s11,
          [.PopulateFromSDP offer perr,
           .NewPeerConnection setupConfig (.ok pc),
           .GetConnectionStats pc stats ok,
           .OnICEConnectionStateChange pc
             (observer lib (if !ok then { stats with ID := "unknoown" } else stats)),
           .findCodecOfType .RTPCodecTypeVideo lib.H264 (.ok videoCodec),
           .Uint32 vssrc,
           .NewTrack pc videoCodec.PayloadType vssrc "video" "video" (.ok videoTrack),
           .AddTransceiverFromTrack pc videoTrack ⟨.RTPTransceiverDirectionSendonly⟩ none,
           .findCodecOfType .RTPCodecTypeAudio lib.Opus (.ok audioCodec),
           .Uint32 assrc,
           .NewTrack pc audioCodec.PayloadType assrc "audio" "audio" (.ok audioTrack),
           .AddTransceiverFromTrack pc audioTrack ⟨.RTPTransceiverDirectionSendonly⟩ none,
           .SetRemoteDescription pc offer (some err)]⟩
  | createAnswer
      {mediaEngine : MediaEngine} {perr : Option GoError} {s1 : σ} {pc : PeerConnection}
      {s2 : σ} {stats : PeerConnectionStats} {ok : Bool} {s3 : σ} {videoCodec : RTPCodec}
      {vssrc : Nat} {s5 : σ} {videoTrack : Track} {s6 s7 : σ} {audioCodec : RTPCodec}
      {assrc : Nat} {s8 : σ} {audioTrack : Track} {s9 s10 s11 : σ} {err : GoError} {s12 : σ}
      (hpop : lib.PopulateFromSDP MediaEngine.zero offer s = ((mediaEngine, perr), s1))
      (hpc : lib.NewPeerConnection (webrtc.NewAPI mediaEngine) setupConfig s1 = (.ok pc, s2))
      (hstats : lib.GetConnectionStats pc s2 = ((stats, ok), s3))
      (hvcodec : findCodecOfType mediaEngine .RTPCodecTypeVideo lib.H264 = .ok videoCodec)
      (hvssrc : lib.Uint32 (lib.OnICEConnectionStateChange pc s3) = (vssrc, s5))
      (hvtrack : lib.NewTrack pc videoCodec.PayloadType vssrc "video" "video" s5 = (.ok
          videoTrack, s6))
      (hvadd : lib.AddTransceiverFromTrack pc videoTrack ⟨.RTPTransceiverDirectionSendonly⟩
          s6 = (none, s7))
      (hacodec : findCodecOfType mediaEngine .RTPCodecTypeAudio lib.Opus = .ok audioCodec)
      (hassrc : lib.Uint32 s7 = (assrc, s8))
      (hatrack : lib.NewTrack pc audioCodec.PayloadType assrc "audio" "audio" s8 = (.ok
          audioTrack, s9))
      (haadd : lib.AddTransceiverFromTrack pc audioTrack ⟨.RTPTransceiverDirectionSendonly⟩
          s9 = (none, s10))
      (hremote : lib.SetRemoteDescription pc offer s10 = (none, s11))
      (hanswer : lib.CreateAnswer pc s11 = (.error err, s12))
      : SetupRun lib m offer s
        ⟨.error err, ⟨some pc, some videoTrack, some audioTrack⟩, s12,
          [.PopulateFromSDP offer perr,
           .NewPeerConnection setupConfig (.ok pc),
           .GetConnectionStats pc stats ok,
           .OnICEConnectionStateChange pc
             (observer lib (if !ok then { stats with ID := "unknoown" } else stats)),
           .findCodecOfType .RTPCodecTypeVideo lib.H264 (.ok videoCodec),
           .Uint32 vssrc,
           .NewTrack pc videoCodec.PayloadType vssrc "video" "video" (.ok videoTrack),
           .AddTransceiverFromTrack pc videoTrack ⟨.RTPTransceiverDirectionSendonly⟩ none,
           .findCodecOfType .RTPCodecTypeAudio lib.Opus (.ok audioCodec),
           .Uint32 assrc,
           .NewTrack pc audioCodec.PayloadType assrc "audio" "audio" (.ok audioTrack),
           .AddTransceiverFromTrack pc audioTrack ⟨.RTPTransceiverDirectionSendonly⟩ none,
           .SetRemoteDescription pc offer none,
           .CreateAnswer pc (.error err)]⟩
  | setLocalDescription
      {mediaEngine : MediaEngine} {perr : Option GoError} {s1 : σ} {pc : PeerConnection}
      {s2 : σ} {stats : PeerConnectionStats} {ok : Bool} {s3 : σ} {videoCodec : RTPCodec}
      {vssrc : Nat} {s5 : σ} {videoTrack : Track} {s6 s7 : σ} {audioCodec : RTPCodec}
      {assrc : Nat} {s8 : σ} {audioTrack : Track} {s9 s10 s11 : σ}
      {answer : SessionDescription} {s12 : σ} {err : GoError} {s13 : σ}
      (hpop : lib.PopulateFromSDP MediaEngine.zero offer s = ((mediaEngine, perr), s1))
      (hpc : lib.NewPeerConnection (webrtc.NewAPI mediaEngine) setupConfig s1 = (.ok pc, s2))
      (hstats : lib.GetConnectionStats pc s2 = ((stats, ok), s3))
      (hvcodec : findCodecOfType mediaEngine .RTPCodecTypeVideo lib.H264 = .ok videoCodec)
      (hvssrc : lib.Uint32 (lib.OnICEConnectionStateChange pc s3) = (vssrc, s5))
      (hvtrack : lib.NewTrack pc videoCodec.PayloadType vssrc "video" "video" s5 = (.ok
          videoTrack, s6))
      (hvadd : lib.AddTransceiverFromTrack pc videoTrack ⟨.RTPTransceiverDirectionSendonly⟩
          s6 = (none, s7))
      (hacodec : findCodecOfType mediaEngine .RTPCodecTypeAudio lib.Opus = .ok audioCodec)
      (hassrc : lib.Uint32 s7 = (assrc, s8))
      (hatrack : lib.NewTrack pc audioCodec.PayloadType assrc "audio" "audio" s8 = (.ok
          audioTrack, s9))
      (haadd : lib.AddTransceiverFromTrack pc audioTrack ⟨.RTPTransceiverDirectionSendonly⟩
          s9 = (none, s10))
      (hremote : lib.SetRemoteDescription pc offer s10 = (none, s11))
      (hanswer : lib.CreateAnswer pc s11 = (.ok answer, s12))
      (hlocal : lib.SetLocalDescription pc answer s12 = (some err, s13))
      : SetupRun lib m offer s
        ⟨.error err, ⟨some pc, some videoTrack, some audioTrack⟩, s13,
          [.PopulateFromSDP offer perr,
           .NewPeerConnection setupConfig (.ok pc),
           .GetConnectionStats pc stats ok,
           .OnICEConnectionStateChange pc
             (observer lib (if !ok then { stats with ID := "unknoown" } else stats)),
           .findCodecOfType .RTPCodecTypeVideo lib.H264 (.ok videoCodec),
           .Uint32 vssrc,
           .NewTrack pc videoCodec.PayloadType vssrc "video" "video" (.ok videoTrack),
           .AddTransceiverFromTrack pc videoTrack ⟨.RTPTransceiverDirectionSendonly⟩ none,
           .findCodecOfType .RTPCodecTypeAudio lib.Opus (.ok audioCodec),
           .Uint32 assrc,
           .NewTrack pc audioCodec.PayloadType assrc "audio" "audio" (.ok audioTrack),
           .AddTransceiverFromTrack pc audioTrack ⟨.RTPTransceiverDirectionSendonly⟩ none,
           .SetRemoteDescription pc offer none,
           .CreateAnswer pc (.ok answer),
           .SetLocalDescription pc answer (some err)]⟩
  | success
      {mediaEngine : MediaEngine} {perr : Option GoError} {s1 : σ} {pc : PeerConnection}
      {s2 : σ} {stats : PeerConnectionStats} {ok : Bool} {s3 : σ} {videoCodec : RTPCodec}
      {vssrc : Nat} {s5 : σ} {videoTrack : Track} {s6 s7 : σ} {audioCodec : RTPCodec}
      {assrc : Nat} {s8 : σ} {audioTrack : Track} {s9 s10 s11 : σ}
      {answer : SessionDescription} {s12 s13 : σ}
      (hpop : lib.PopulateFromSDP MediaEngine.zero offer s = ((mediaEngine, perr), s1))
      (hpc : lib.NewPeerConnection (webrtc.NewAPI mediaEngine) setupConfig s1 = (.ok pc, s2))
      (hstats : lib.GetConnectionStats pc s2 = ((stats, ok), s3))
      (hvcodec : findCodecOfType mediaEngine .RTPCodecTypeVideo lib.H264 = .ok videoCodec)
      (hvssrc : lib.Uint32 (lib.OnICEConnectionStateChange pc s3) = (vssrc, s5))
      (hvtrack : lib.NewTrack pc videoCodec.PayloadType vssrc "video" "video" s5 = (.ok
          videoTrack, s6))
      (hvadd : lib.AddTransceiverFromTrack pc videoTrack ⟨.RTPTransceiverDirectionSendonly⟩
          s6 = (none, s7))
      (hacodec : findCodecOfType mediaEngine .RTPCodecTypeAudio lib.Opus = .ok audioCodec)
      (hassrc : lib.Uint32 s7 = (assrc, s8))
      (hatrack : lib.NewTrack pc audioCodec.PayloadType assrc "audio" "audio" s8 = (.ok
          audioTrack, s9))
      (haadd : lib.AddTransceiverFromTrack pc audioTrack ⟨.RTPTransceiverDirectionSendonly⟩
          s9 = (none, s10))
      (hremote : lib.SetRemoteDescription pc offer s10 = (none, s11))
      (hanswer : lib.CreateAnswer pc s11 = (.ok answer, s12))
      (hlocal : lib.SetLocalDescription pc answer s12 = (none, s13))
      : SetupRun lib m offer s
        ⟨.ok answer, ⟨some pc, some videoTrack, some audioTrack⟩, s13,
          [.PopulateFromSDP offer perr,
           .NewPeerConnection setupConfig (.ok pc),
           .GetConnectionStats pc stats ok,
           .OnICEConnectionStateChange pc
             (observer lib (if !ok then { stats with ID := "unknoown" } else stats)),
           .findCodecOfType .RTPCodecTypeVideo lib.H264 (.ok videoCodec),
           .Uint32 vssrc,
           .NewTrack pc videoCodec.PayloadType vssrc "video" "video" (.ok videoTrack),
           .AddTransceiverFromTrack pc videoTrack ⟨.RTPTransceiverDirectionSendonly⟩ none,
           .findCodecOfType .RTPCodecTypeAudio lib.Opus (.ok audioCodec),
           .Uint32 assrc,
           .NewTrack pc audioCodec.PayloadType assrc "audio" "audio" (.ok audioTrack),
           .AddTransceiverFromTrack pc audioTrack ⟨.RTPTransceiverDirectionSendonly⟩ none,
           .SetRemoteDescription pc offer none,
           .CreateAnswer pc (.ok answer),
           .SetLocalDescription pc answer none]⟩

/-! ## A concrete library for the worked examples -/

/-- The capabilities declared by the offers of the worked examples, read off the SDP
text: `"H264+Opus"`, `"VP8+Opus"` and `"H264"` declare the codecs they name; any
other text is malformed, registers no codec and reports a parse error. -/
def demoParse (offer : SessionDescription) : MediaEngine × Option GoError :=
  if offer.SDP = "H264+Opus" then
    (⟨fun kind => match kind with
        | .RTPCodecTypeVideo => [⟨"H264", 102⟩]
        | .RTPCodecTypeAudio => [⟨"Opus", 111⟩]⟩, none)
  else if offer.SDP = "VP8+Opus" then
    (⟨fun kind => match kind with
        | .RTPCodecTypeVideo => [⟨"VP8", 96⟩]
        | .RTPCodecTypeAudio => [⟨"Opus", 111⟩]⟩, none)
  else if offer.SDP = "H264" then
    (⟨fun kind => match kind with
        | .RTPCodecTypeVideo => [⟨"H264", 102⟩]
        | .RTPCodecTypeAudio => []⟩, none)
  else (MediaEngine.zero, some (errors.New "malformed offer"))

/-- A library for the worked examples.  Its state is the number of handles handed
out so far; every connection and every track gets the next handle.  The statistics
lookup yields an identifier or not as `statsOk` says, and `SetRemoteDescription`
returns `remoteErr`; every other call succeeds.  The preferred codec names are
`"H264"` and `"Opus"`, the required names the specification gives; `pionLib` below
carries the names the program passes. -/
def demoLib (statsOk : Bool) (remoteErr : Option GoError) : Lib Nat where
  PopulateFromSDP := fun _ offer n => (demoParse offer, n)
  NewPeerConnection := fun _ _ n => (.ok ⟨n⟩, n + 1)
  GetConnectionStats := fun _ n => ((⟨if statsOk then "PeerConnection-0" else ""⟩, statsOk), n)
  OnICEConnectionStateChange := fun _ n => n
  Uint32 := fun n => (4242 + n, n)
  NewTrack := fun _ _ _ _ _ n => (.ok ⟨n⟩, n + 1)
  AddTransceiverFromTrack := fun _ _ _ n => (none, n)
  SetRemoteDescription := fun _ _ n => (remoteErr, n)
  CreateAnswer := fun _ n => (.ok ⟨2, "answer"⟩, n)
  SetLocalDescription := fun _ _ n => (none, n)
  ICEConnectionStateString := fun state =>
    if state = 1 then "new" else if state = 2 then "checking"
    else if state = 3 then "connected" else if state = 4 then "completed"
    else if state = 5 then "disconnected" else if state = 6 then "failed"
    else if state = 7 then "closed" else "unknown"
  H264 := "H264"
  Opus := "Opus"

/-- The capabilities declared by the offers of the examples on the audio codec name:
`"H264+opus"` registers the audio codec under the name `"opus"`, `"H264+Opus"` under
the name `"Opus"`, and `"H264"` registers no audio codec; any other text is
malformed. -/
def pionParse (offer : SessionDescription) : MediaEngine × Option GoError :=
  if offer.SDP = "H264+opus" then
    (⟨fun kind => match kind with
        | .RTPCodecTypeVideo => [⟨"H264", 102⟩]
        | .RTPCodecTypeAudio => [⟨"opus", 111⟩]⟩, none)
  else if offer.SDP = "H264+Opus" then
    (⟨fun kind => match kind with
        | .RTPCodecTypeVideo => [⟨"H264", 102⟩]
        | .RTPCodecTypeAudio => [⟨"Opus", 111⟩]⟩, none)
  else if offer.SDP = "H264" then
    (⟨fun kind => match kind with
        | .RTPCodecTypeVideo => [⟨"H264", 102⟩]
        | .RTPCodecTypeAudio => []⟩, none)
  else (MediaEngine.zero, some (errors.New "malformed offer"))

/-- The example library with the codec names the program passes: the package
constants of `github.com/pion/webrtc/v2` are `webrtc.H264 = "H264"` and
`webrtc.Opus = "opus"`, the latter in lower case.  Every call succeeds. -/
def pionLib : Lib Nat :=
  { demoLib true none with
    PopulateFromSDP := fun _ offer n => (pionParse offer, n)
    H264 := "H264"
    Opus := "opus" }

/-! ## Varying the library -/

/-- The library `lib` with the result of the statistics lookup replaced by `lookup`;
the effect of the lookup on the library state is kept. -/
def Lib.replaceStats {σ : Type} (lib : Lib σ)
    (lookup : PeerConnection → σ → PeerConnectionStats × Bool) : Lib σ :=
  { lib with
    GetConnectionStats := fun pc s => (lookup pc s, (lib.GetConnectionStats pc s).2) }

/-- The library `lib` with the error result of `PopulateFromSDP` replaced by `perr`;
the populated engine and the effect on the library state are kept. -/
def Lib.replaceParseError {σ : Type} (lib : Lib σ)
    (perr : SessionDescription → σ → Option GoError) : Lib σ :=
  { lib with
    PopulateFromSDP := fun mediaEngine offer s =>
      (((lib.PopulateFromSDP mediaEngine offer s).1.1, perr offer s),
        (lib.PopulateFromSDP mediaEngine offer s).2) }

/-- One library call takes the library state `a` to the state `b`. -/
inductive Lib.Step {σ : Type} (lib : Lib σ) : σ → σ → Prop where
  | PopulateFromSDP {mediaEngine offer a r b}
      (h : lib.PopulateFromSDP mediaEngine offer a = (r, b)) : lib.Step a b
  | NewPeerConnection {api config a r b}
      (h : lib.NewPeerConnection api config a = (r, b)) : lib.Step a b
  | GetConnectionStats {pc a r b} (h : lib.GetConnectionStats pc a = (r, b)) : lib.Step a b
  | OnICEConnectionStateChange (pc a) : lib.Step a (lib.OnICEConnectionStateChange pc a)
  | Uint32 {a r b} (h : lib.Uint32 a = (r, b)) : lib.Step a b
  | NewTrack {pc payloadType ssrc id label a r b}
      (h : lib.NewTrack pc payloadType ssrc id label a = (r, b)) : lib.Step a b
  | AddTransceiverFromTrack {pc track init a r b}
      (h : lib.AddTransceiverFromTrack pc track init a = (r, b)) : lib.Step a b
  | SetRemoteDescription {pc offer a r b}
      (h : lib.SetRemoteDescription pc offer a = (r, b)) : lib.Step a b
  | CreateAnswer {pc a r b} (h : lib.CreateAnswer pc a = (r, b)) : lib.Step a b
  | SetLocalDescription {pc answer a r b}
      (h : lib.SetLocalDescription pc answer a = (r, b)) : lib.Step a b

/-- The library hands out fresh handles, as a Go library that allocates a new object
for every connection and every track does: `pcs a` and `tracks a` are the handles
handed out before state `a`; no call forgets a handle, and a successful creation
returns a handle not handed out before and records it. -/
structure Lib.Fresh {σ : Type} (lib : Lib σ) (pcs : σ → PeerConnection → Prop)
    (tracks : σ → Track → Prop) : Prop where
  pcs_mono : ∀ {a b}, lib.Step a b → ∀ pc, pcs a pc → pcs b pc
  tracks_mono : ∀ {a b}, lib.Step a b → ∀ track, tracks a track → tracks b track
  newPeerConnection : ∀ {api config a pc b},
    lib.NewPeerConnection api config a = (.ok pc, b) → ¬ pcs a pc ∧ pcs b pc
  newTrack : ∀ {pc payloadType ssrc id label a track b},
    lib.NewTrack pc payloadType ssrc id label a = (.ok track, b) →
      ¬ tracks a track ∧ tracks b track

/-! ## Lemmas on the loop -/

theorem findCodecOfType.loop_eq_none (codecName : String) (codecs : List RTPCodec) :
    findCodecOfType.loop codecName codecs = none ↔ ∀ c ∈ codecs, c.Name ≠ codecName := by
  induction codecs with
  | nil => simp [findCodecOfType.loop]
  | cons c rest ih =>
    by_cases h : c.Name = codecName
    · simp [findCodecOfType.loop, h]
    · simp [findCodecOfType.loop, h, ih]

theorem findCodecOfType.loop_eq_some (codecName : String) (codecs : List RTPCodec)
    (codec : RTPCodec) (h : findCodecOfType.loop codecName codecs = some codec) :
    ∃ pre post, codecs = pre ++ codec :: post ∧ codec.Name = codecName ∧
      ∀ c ∈ pre, c.Name ≠ codecName := by
  induction codecs with
  | nil => simp [findCodecOfType.loop] at h
  | cons c rest ih =>
    by_cases hc : c.Name = codecName
    · simp [findCodecOfType.loop, hc] at h
      subst h
      exact ⟨[], rest, by simp, hc, by simp⟩
    · simp [findCodecOfType.loop, hc] at h
      obtain ⟨pre, post, h1, h2, h3⟩ := ih h
      refine ⟨c :: pre, post, by simp [h1], h2, ?_⟩
      intro x hx
      rcases List.mem_cons.mp hx with rfl | hx
      · exact hc
      · exact h3 x hx

theorem findCodecOfType.loop_append (codecName : String) (pre post : List RTPCodec)
    (codec : RTPCodec) (hname : codec.Name = codecName)
    (hpre : ∀ c ∈ pre, c.Name ≠ codecName) :
    findCodecOfType.loop codecName (pre ++ codec :: post) = some codec := by
  induction pre with
  | nil => simp [findCodecOfType.loop, hname]
  | cons c rest ih =>
    have hc : c.Name ≠ codecName := hpre c (by simp)
    have hrest : ∀ x ∈ rest, x.Name ≠ codecName := fun x hx => hpre x (by simp [hx])
    simp [findCodecOfType.loop, hc, ih hrest]

theorem findCodecOfType_of_loop_none (mediaEngine : MediaEngine) (kind : RTPCodecType)
    (codecName : String)
    (h : findCodecOfType.loop codecName (mediaEngine.GetCodecsByKind kind) = none) :
    findCodecOfType mediaEngine kind codecName =
      .error (errors.New ("No codec of type " ++ codecName ++ " found")) := by
  simp [findCodecOfType, h]

theorem findCodecOfType_of_loop_some (mediaEngine : MediaEngine) (kind : RTPCodecType)
    (codecName : String) (codec : RTPCodec)
    (h : findCodecOfType.loop codecName (mediaEngine.GetCodecsByKind kind) = some codec) :
    findCodecOfType mediaEngine kind codecName = .ok codec := by
  simp [findCodecOfType, h]

/-- No codec of the enumeration carries the name: the codec-not-found error. -/
theorem findCodecOfType_absent (mediaEngine : MediaEngine) (kind : RTPCodecType)
    (codecName : String) (h : ∀ c ∈ mediaEngine.GetCodecsByKind kind, c.Name ≠ codecName) :
    findCodecOfType mediaEngine kind codecName =
      .error (errors.New ("No codec of type " ++ codecName ++ " found")) :=
  findCodecOfType_of_loop_none _ _ _ ((findCodecOfType.loop_eq_none _ _).mpr h)

/-- Some codec of the enumeration carries the name: a codec is returned. -/
theorem findCodecOfType_present (mediaEngine : MediaEngine) (kind : RTPCodecType)
    (codecName : String) (h : ∃ c ∈ mediaEngine.GetCodecsByKind kind, c.Name = codecName) :
    ∃ codec, findCodecOfType mediaEngine kind codecName = .ok codec ∧
      codec ∈ mediaEngine.GetCodecsByKind kind ∧ codec.Name = codecName := by
  obtain ⟨c, hc, hname⟩ := h
  cases hl : findCodecOfType.loop codecName (mediaEngine.GetCodecsByKind kind) with
  | none => exact absurd hname ((findCodecOfType.loop_eq_none _ _).mp hl c hc)
  | some codec =>
    obtain ⟨pre, post, h1, h2, _⟩ := findCodecOfType.loop_eq_some _ _ _ hl
    exact ⟨codec, findCodecOfType_of_loop_some _ _ _ _ hl, by simp [h1], h2⟩

/-- Every error of `findCodecOfType` is the codec-not-found error, and then no codec
of the enumeration carries the name. -/
theorem findCodecOfType_error (mediaEngine : MediaEngine) (kind : RTPCodecType)
    (codecName : String) (err : GoError)
    (h : findCodecOfType mediaEngine kind codecName = .error err) :
    err = errors.New ("No codec of type " ++ codecName ++ " found") ∧
      ∀ c ∈ mediaEngine.GetCodecsByKind kind, c.Name ≠ codecName := by
  cases hl : findCodecOfType.loop codecName (mediaEngine.GetCodecsByKind kind) with
  | none =>
    rw [findCodecOfType_of_loop_none _ _ _ hl] at h
    exact ⟨(Except.error.inj h).symm, (findCodecOfType.loop_eq_none _ _).mp hl⟩
  | some codec =>
    rw [findCodecOfType_of_loop_some _ _ _ _ hl] at h
    cases h

/-! ## Claims on `findCodecOfType` -/

/-- C1: `findCodecOfType` returns an error exactly when no codec enumerated by
`GetCodecsByKind kind` has a `Name` equal to the requested name (string equality,
so case matters), the error being the one built with `errors.New`; otherwise it
returns a codec of that enumeration whose `Name` equals the requested name.  In
particular codecs named `"h264"` or `"OPUS"` do not satisfy requests for `"H264"`
or `"Opus"`. -/
theorem findCodecOfType_error_iff (mediaEngine : MediaEngine) (kind : RTPCodecType)
    (codecName : String) :
    ((∃ err, findCodecOfType mediaEngine kind codecName = .error err) ↔
        ∀ c ∈ mediaEngine.GetCodecsByKind kind, c.Name ≠ codecName) ∧
    (∀ err, findCodecOfType mediaEngine kind codecName = .error err →
        err = errors.New ("No codec of type " ++ codecName ++ " found")) ∧
    ((∃ c ∈ mediaEngine.GetCodecsByKind kind, c.Name = codecName) →
        ∃ codec, findCodecOfType mediaEngine kind codecName = .ok codec ∧
          codec ∈ mediaEngine.GetCodecsByKind kind ∧ codec.Name = codecName) ∧
    (∀ pt, ∃ err, findCodecOfType ⟨fun _ => [⟨"h264", pt⟩]⟩ kind "H264" = .error err) ∧
    (∀ pt, ∃ err, findCodecOfType ⟨fun _ => [⟨"OPUS", pt⟩]⟩ kind "Opus" = .error err) := by
  refine ⟨⟨?_, ?_⟩, ?_, ?_, ?_, ?_⟩
  · rintro ⟨err, h⟩
    exact (findCodecOfType_error _ _ _ _ h).2
  · intro h
    exact ⟨_, findCodecOfType_absent _ _ _ h⟩
  · intro err h
    exact (findCodecOfType_error _ _ _ _ h).1
  · exact findCodecOfType_present _ _ _
  · intro pt
    exact ⟨_, findCodecOfType_absent _ _ _ (by simp)⟩
  · intro pt
    exact ⟨_, findCodecOfType_absent _ _ _ (by simp)⟩

/-- Witness for C1: an engine whose video codecs are `"VP8"` and `"H264"` answers a
request for `"H264"` with a codec of that name, and a request for `"h264"` with an
error. -/
theorem findCodecOfType_error_iff_witness :
    (∃ codec, findCodecOfType ⟨fun _ => [⟨"VP8", 96⟩, ⟨"H264", 102⟩]⟩
        RTPCodecType.RTPCodecTypeVideo "H264" = .ok codec ∧
      codec ∈ [(⟨"VP8", 96⟩ : RTPCodec), ⟨"H264", 102⟩] ∧ codec.Name = "H264") ∧
    (∃ err, findCodecOfType ⟨fun _ => [⟨"VP8", 96⟩, ⟨"H264", 102⟩]⟩
        RTPCodecType.RTPCodecTypeVideo "h264" = .error err) :=
  ⟨(findCodecOfType_error_iff ⟨fun _ => [⟨"VP8", 96⟩, ⟨"H264", 102⟩]⟩
      RTPCodecType.RTPCodecTypeVideo "H264").2.2.1 ⟨⟨"H264", 102⟩, by decide, rfl⟩,
   (findCodecOfType_error_iff ⟨fun _ => [⟨"VP8", 96⟩, ⟨"H264", 102⟩]⟩
      RTPCodecType.RTPCodecTypeVideo "h264").1.mpr (by decide)⟩

/-- C2: when the enumeration `GetCodecsByKind kind` splits as `pre ++ codec :: post`
with `codec` named as requested and no codec of `pre` so named, `findCodecOfType`
returns `codec`, whatever same-named codecs follow in `post`; and whatever it
returns sits at a position of the enumeration before which no codec has the
requested name. -/
theorem findCodecOfType_first_match (mediaEngine : MediaEngine) (kind : RTPCodecType)
    (codecName : String) :
    (∀ pre codec post, mediaEngine.GetCodecsByKind kind = pre ++ codec :: post →
        codec.Name = codecName → (∀ c ∈ pre, c.Name ≠ codecName) →
        findCodecOfType mediaEngine kind codecName = .ok codec) ∧
    (∀ codec, findCodecOfType mediaEngine kind codecName = .ok codec →
        ∃ i : Nat, (mediaEngine.GetCodecsByKind kind)[i]? = some codec ∧
          ∀ j : Nat, j < i → ∀ c : RTPCodec, (mediaEngine.GetCodecsByKind kind)[j]? = some c →
            c.Name ≠ codecName) := by
  constructor
  · intro pre codec post hsplit hname hpre
    apply findCodecOfType_of_loop_some
    rw [hsplit]
    exact findCodecOfType.loop_append codecName pre post codec hname hpre
  · intro codec h
    cases hl : findCodecOfType.loop codecName (mediaEngine.GetCodecsByKind kind) with
    | none =>
      rw [findCodecOfType_of_loop_none _ _ _ hl] at h
      cases h
    | some c0 =>
      rw [findCodecOfType_of_loop_some _ _ _ _ hl] at h
      cases h
      obtain ⟨pre, post, h1, _, h3⟩ := findCodecOfType.loop_eq_some _ _ _ hl
      refine ⟨pre.length, by rw [h1, List.getElem?_append_right (Nat.le_refl _)]; simp, ?_⟩
      intro j hj c hc
      rw [h1, List.getElem?_append_left hj] at hc
      exact h3 c (List.getElem?_mem hc)

/-- Witness for C2: among three video codecs of which the last two are both named
`"H264"`, the earlier of the two (payload type 102) is returned. -/
theorem findCodecOfType_first_match_witness :
    findCodecOfType ⟨fun _ => [⟨"VP8", 96⟩, ⟨"H264", 102⟩, ⟨"H264", 125⟩]⟩
      RTPCodecType.RTPCodecTypeVideo "H264" = .ok ⟨"H264", 102⟩ :=
  (findCodecOfType_first_match ⟨fun _ => [⟨"VP8", 96⟩, ⟨"H264", 102⟩, ⟨"H264", 125⟩]⟩
      RTPCodecType.RTPCodecTypeVideo "H264").1 [⟨"VP8", 96⟩] ⟨"H264", 102⟩ [⟨"H264", 125⟩]
    rfl rfl (by decide)

/-! ## `Setup` follows one of the paths -/

theorem setupConfig_literal :
    ({ ICEServers := [{ URLs := ["stun:stun.l.google.com:19302"] }] } : Configuration) =
      setupConfig := rfl

theorem SetupRun.eq_Setup {σ : Type} {lib : Lib σ} {m : WebRTCStreamer}
    {offer : SessionDescription} {s : σ} {o : Outcome σ} (h : SetupRun lib m offer s o) :
    m.Setup lib offer s = o := by
  cases h <;> simp [WebRTCStreamer.Setup, setupConfig_literal, *]

theorem SetupRun.self_of_run {σ : Type} {lib : Lib σ} {m : WebRTCStreamer}
    {offer : SessionDescription} {s : σ} {o : Outcome σ} (h : SetupRun lib m offer s o) :
    SetupRun lib m offer s (m.Setup lib offer s) := by
  rw [h.eq_Setup]; exact h

theorem Setup_run {σ : Type} (lib : Lib σ) (m : WebRTCStreamer) (offer : SessionDescription)
    (s : σ) : SetupRun lib m offer s (m.Setup lib offer s) := by
  rcases hpop : lib.PopulateFromSDP MediaEngine.zero offer s with ⟨⟨mediaEngine, perr⟩, s1⟩
  rcases hpc : lib.NewPeerConnection (webrtc.NewAPI mediaEngine) setupConfig s1 with ⟨err |
      pc, s2⟩
  · exact SetupRun.self_of_run (.newPeerConnection hpop hpc)
  rcases hstats : lib.GetConnectionStats pc s2 with ⟨⟨stats, ok⟩, s3⟩
  rcases hvcodec : findCodecOfType mediaEngine .RTPCodecTypeVideo lib.H264 with err |
      videoCodec
  · exact SetupRun.self_of_run (.videoCodec hpop hpc hstats hvcodec)
  rcases hvssrc : lib.Uint32 (lib.OnICEConnectionStateChange pc s3) with ⟨vssrc, s5⟩
  rcases hvtrack : lib.NewTrack pc videoCodec.PayloadType vssrc "video" "video" s5 with ⟨err
      | videoTrack, s6⟩
  · exact SetupRun.self_of_run (.videoTrack hpop hpc hstats hvcodec hvssrc hvtrack)
  rcases hvadd : lib.AddTransceiverFromTrack pc videoTrack
      ⟨.RTPTransceiverDirectionSendonly⟩ s6 with ⟨_ | err, s7⟩
  swap
  · exact SetupRun.self_of_run (.videoTransceiver hpop hpc hstats hvcodec hvssrc hvtrack hvadd)
  rcases hacodec : findCodecOfType mediaEngine .RTPCodecTypeAudio lib.Opus with err |
      audioCodec
  · exact SetupRun.self_of_run (.audioCodec hpop hpc hstats hvcodec hvssrc hvtrack hvadd hacodec)
  rcases hassrc : lib.Uint32 s7 with ⟨assrc, s8⟩
  rcases hatrack : lib.NewTrack pc audioCodec.PayloadType assrc "audio" "audio" s8 with ⟨err
      | audioTrack, s9⟩
  · exact SetupRun.self_of_run (.audioTrack hpop hpc hstats hvcodec hvssrc hvtrack hvadd
      hacodec hassrc hatrack)
  rcases haadd : lib.AddTransceiverFromTrack pc audioTrack
      ⟨.RTPTransceiverDirectionSendonly⟩ s9 with ⟨_ | err, s10⟩
  swap
  · exact SetupRun.self_of_run (.audioTransceiver hpop hpc hstats hvcodec hvssrc hvtrack
      hvadd hacodec hassrc hatrack haadd)
  rcases hremote : lib.SetRemoteDescription pc offer s10 with ⟨_ | err, s11⟩
  swap
  · exact SetupRun.self_of_run (.setRemoteDescription hpop hpc hstats hvcodec hvssrc hvtrack
      hvadd hacodec hassrc hatrack haadd hremote)
  rcases hanswer : lib.CreateAnswer pc s11 with ⟨err | answer, s12⟩
  · exact SetupRun.self_of_run (.createAnswer hpop hpc hstats hvcodec hvssrc hvtrack hvadd
      hacodec hassrc hatrack haadd hremote hanswer)
  rcases hlocal : lib.SetLocalDescription pc answer s12 with ⟨_ | err, s13⟩
  swap
  · exact SetupRun.self_of_run (.setLocalDescription hpop hpc hstats hvcodec hvssrc hvtrack
      hvadd hacodec hassrc hatrack haadd hremote hanswer hlocal)
  exact SetupRun.self_of_run (.success hpop hpc hstats hvcodec hvssrc hvtrack hvadd hacodec
      hassrc hatrack haadd hremote hanswer hlocal)

/-! ## Two calls in a row -/

/-- What `Setup` returns, the calls it makes and the library state it leaves do not
depend on the streamer it is called on; after a success neither do the fields. -/
theorem Setup_streamer_irrelevant {σ : Type} (lib : Lib σ) (m m0 : WebRTCStreamer)
    (offer : SessionDescription) (s : σ) :
    (m.Setup lib offer s).result = (m0.Setup lib offer s).result ∧
    (m.Setup lib offer s).trace = (m0.Setup lib offer s).trace ∧
    (m.Setup lib offer s).lib = (m0.Setup lib offer s).lib ∧
    (∀ answer, (m0.Setup lib offer s).result = .ok answer →
      (m.Setup lib offer s).m = (m0.Setup lib offer s).m) := by
  have hrun := Setup_run lib m0 offer s
  generalize m0.Setup lib offer s = o at hrun ⊢
  cases hrun <;> simp [WebRTCStreamer.Setup, setupConfig_literal, *]

theorem Lib.Fresh.pcs_reach {σ : Type} {lib : Lib σ} {pcs : σ → PeerConnection → Prop}
    {tracks : σ → Track → Prop} (hfresh : lib.Fresh pcs tracks) {a b : σ}
    (h : Relation.ReflTransGen lib.Step a b) (pc : PeerConnection) (hpc : pcs a pc) :
    pcs b pc := by
  induction h with
  | refl => exact hpc
  | tail _ hstep ih => exact hfresh.pcs_mono hstep pc ih

theorem Lib.Fresh.tracks_reach {σ : Type} {lib : Lib σ} {pcs : σ → PeerConnection → Prop}
    {tracks : σ → Track → Prop} (hfresh : lib.Fresh pcs tracks) {a b : σ}
    (h : Relation.ReflTransGen lib.Step a b) (track : Track) (ht : tracks a track) :
    tracks b track := by
  induction h with
  | refl => exact ht
  | tail _ hstep ih => exact hfresh.tracks_mono hstep track ih

/-- A successful `Setup` over a library that hands out fresh handles: the fields
hold handles that were not handed out before the call and are recorded after it,
and the two tracks differ. -/
theorem Setup_success_fresh {σ : Type} {lib : Lib σ} {pcs : σ → PeerConnection → Prop}
    {tracks : σ → Track → Prop} (hfresh : lib.Fresh pcs tracks) (m : WebRTCStreamer)
    (offer : SessionDescription) (s : σ) (answer : SessionDescription)
    (hok : (m.Setup lib offer s).result = .ok answer) :
    ∃ pc videoTrack audioTrack,
      (m.Setup lib offer s).m = ⟨some pc, some videoTrack, some audioTrack⟩ ∧
      transceivers (m.Setup lib offer s).trace =
        [(pc, videoTrack, ⟨.RTPTransceiverDirectionSendonly⟩),
         (pc, audioTrack, ⟨.RTPTransceiverDirectionSendonly⟩)] ∧
      videoTrack ≠ audioTrack ∧
      (¬ pcs s pc ∧ ¬ tracks s videoTrack ∧ ¬ tracks s audioTrack) ∧
      (pcs (m.Setup lib offer s).lib pc ∧ tracks (m.Setup lib offer s).lib videoTrack ∧
        tracks (m.Setup lib offer s).lib audioTrack) := by
  have hrun := Setup_run lib m offer s
  generalize m.Setup lib offer s = o at hrun hok ⊢
  cases hrun with
  | success hpop hpc hstats hvcodec hvssrc hvtrack hvadd hacodec hassrc hatrack haadd hremote
      hanswer hlocal =>
    have k1 := Relation.ReflTransGen.single (Lib.Step.PopulateFromSDP hpop)
    have k2 := Relation.ReflTransGen.single (Lib.Step.NewPeerConnection hpc)
    have k5 := ((Relation.ReflTransGen.single (Lib.Step.GetConnectionStats hstats)).tail
      (Lib.Step.OnICEConnectionStateChange _ _)).tail (Lib.Step.Uint32 hvssrc)
    have k6 := Relation.ReflTransGen.single (Lib.Step.NewTrack hvtrack)
    have k8 := (Relation.ReflTransGen.single (Lib.Step.AddTransceiverFromTrack hvadd)).tail
      (Lib.Step.Uint32 hassrc)
    have k9 := Relation.ReflTransGen.single (Lib.Step.NewTrack hatrack)
    have k13 := (((Relation.ReflTransGen.single (Lib.Step.AddTransceiverFromTrack haadd)).tail
      (Lib.Step.SetRemoteDescription hremote)).tail (Lib.Step.CreateAnswer hanswer)).tail
      (Lib.Step.SetLocalDescription hlocal)
    obtain ⟨hpc_new, hpc_rec⟩ := hfresh.newPeerConnection hpc
    obtain ⟨hv_new, hv_rec⟩ := hfresh.newTrack hvtrack
    obtain ⟨ha_new, ha_rec⟩ := hfresh.newTrack hatrack
    refine ⟨_, _, _, rfl, rfl, ?_, ⟨?_, ?_, ?_⟩, ?_, ?_, ?_⟩
    · rintro rfl
      exact ha_new (hfresh.tracks_reach k8 _ hv_rec)
    · exact fun h => hpc_new (hfresh.pcs_reach k1 _ h)
    · exact fun h => hv_new (hfresh.tracks_reach ((k1.trans k2).trans k5) _ h)
    · exact fun h => ha_new (hfresh.tracks_reach
        (((((k1.trans k2).trans k5).trans k6).trans k8)) _ h)
    · exact hfresh.pcs_reach ((((k5.trans k6).trans k8).trans k9).trans k13) _ hpc_rec
    · exact hfresh.tracks_reach ((k8.trans k9).trans k13) _ hv_rec
    · exact hfresh.tracks_reach k13 _ ha_rec
  | _ => simp at hok

/-! ## The two codec resolutions, for any preferred names -/

/-- The audio codec is missing, whatever the two preferred codec names are: when
the engine populated from the offer holds a video codec named
`lib.H264` but no audio codec named `lib.Opus`, and connection creation, video
track creation and video transceiver attachment succeed, `Setup` returns the
codec-not-found error for `lib.Opus` after exactly the first nine calls of its
body: one transceiver is attached, the send-only one of the video track created by
this call, on the connection created by this call; `VideoTrack` holds that track,
`AudioTrack` is unchanged, and the trace holds no audio `NewTrack`, no
`SetRemoteDescription`, no `CreateAnswer` and no `SetLocalDescription` call. -/
theorem Setup_without_audio_codec {σ : Type} (lib : Lib σ) (m : WebRTCStreamer)
    (offer : SessionDescription) (s : σ)
    (hvideo : ∃ c ∈ (lib.PopulateFromSDP MediaEngine.zero offer s).1.1.GetCodecsByKind
        .RTPCodecTypeVideo, c.Name = lib.H264)
    (haudio : ∀ c ∈ (lib.PopulateFromSDP MediaEngine.zero offer s).1.1.GetCodecsByKind
        .RTPCodecTypeAudio, c.Name ≠ lib.Opus)
    (hsteps : ∀ e ∈ (m.Setup lib offer s).trace,
        e.call = .NewPeerConnection ∨ e.call = .NewTrack "video" ∨
          e.call = .AddTransceiverFromTrack → e.failure = none) :
    (m.Setup lib offer s).result =
        .error (errors.New ("No codec of type " ++ lib.Opus ++ " found")) ∧
    (m.Setup lib offer s).trace.map Event.call = SetupCalls.take 9 ∧
    (∃ pc videoTrack payloadType ssrc,
        Event.NewPeerConnection setupConfig (.ok pc) ∈ (m.Setup lib offer s).trace ∧
        Event.NewTrack pc payloadType ssrc "video" "video" (.ok videoTrack) ∈
          (m.Setup lib offer s).trace ∧
        transceivers (m.Setup lib offer s).trace =
          [(pc, videoTrack, ⟨.RTPTransceiverDirectionSendonly⟩)] ∧
        (m.Setup lib offer s).m.peerConnection = some pc ∧
        (m.Setup lib offer s).m.VideoTrack = some videoTrack) ∧
    (m.Setup lib offer s).m.AudioTrack = m.AudioTrack ∧
    (∀ e ∈ (m.Setup lib offer s).trace,
        e.call ≠ .NewTrack "audio" ∧ e.call ≠ .SetRemoteDescription ∧
          e.call ≠ .CreateAnswer ∧ e.call ≠ .SetLocalDescription) := by
  have habsent := findCodecOfType_absent _ _ _ haudio
  obtain ⟨codec, hpresent, -, -⟩ := findCodecOfType_present _ _ _ hvideo
  clear hvideo haudio
  have hrun := Setup_run lib m offer s
  generalize m.Setup lib offer s = o at hrun hsteps ⊢
  cases hrun <;>
    simp_all [Event.failure, Except.goError, Event.call, transceivers, SetupCalls]

/-- Both codecs are present, whatever the two preferred codec names are: when the
engine populated from the offer holds a video codec named
`lib.H264` and an audio codec named `lib.Opus`, and no library call of the run
fails, `Setup` makes all fifteen calls of its body in order and returns, with a nil
error, the description that `CreateAnswer` produced and that was passed to
`SetLocalDescription`; exactly two transceivers are attached, both send-only, on the
connection created by this call: first the one of the video track created by this
call, then the one of the audio track created by this call. -/
theorem Setup_with_both_codecs {σ : Type} (lib : Lib σ) (m : WebRTCStreamer)
    (offer : SessionDescription) (s : σ)
    (hvideo : ∃ c ∈ (lib.PopulateFromSDP MediaEngine.zero offer s).1.1.GetCodecsByKind
        .RTPCodecTypeVideo, c.Name = lib.H264)
    (haudio : ∃ c ∈ (lib.PopulateFromSDP MediaEngine.zero offer s).1.1.GetCodecsByKind
        .RTPCodecTypeAudio, c.Name = lib.Opus)
    (hcalls : ∀ e ∈ (m.Setup lib offer s).trace,
        (∀ kind, e.call ≠ .findCodecOfType kind) → e.failure = none) :
    ∃ answer pc videoTrack audioTrack,
      (m.Setup lib offer s).result = .ok answer ∧
      (m.Setup lib offer s).trace.map Event.call = SetupCalls ∧
      Event.NewPeerConnection setupConfig (.ok pc) ∈ (m.Setup lib offer s).trace ∧
      (∃ payloadType ssrc, Event.NewTrack pc payloadType ssrc "video" "video" (.ok videoTrack) ∈
          (m.Setup lib offer s).trace) ∧
      (∃ payloadType ssrc, Event.NewTrack pc payloadType ssrc "audio" "audio" (.ok audioTrack) ∈
          (m.Setup lib offer s).trace) ∧
      Event.CreateAnswer pc (.ok answer) ∈ (m.Setup lib offer s).trace ∧
      Event.SetLocalDescription pc answer none ∈ (m.Setup lib offer s).trace ∧
      transceivers (m.Setup lib offer s).trace =
        [(pc, videoTrack, ⟨.RTPTransceiverDirectionSendonly⟩),
         (pc, audioTrack, ⟨.RTPTransceiverDirectionSendonly⟩)] ∧
      (m.Setup lib offer s).m = ⟨some pc, some videoTrack, some audioTrack⟩ := by
  obtain ⟨vcodec, hvpresent, -, -⟩ := findCodecOfType_present _ _ _ hvideo
  obtain ⟨acodec, hapresent, -, -⟩ := findCodecOfType_present _ _ _ haudio
  clear hvideo haudio
  have hrun := Setup_run lib m offer s
  generalize m.Setup lib offer s = o at hrun hcalls ⊢
  cases hrun with
  | success hpop hpc hstats hvcodec hvssrc hvtrack hvadd hacodec hassrc hatrack haadd hremote
      hanswer hlocal =>
    exact ⟨_, _, _, _, rfl, rfl,
      by repeat (first | exact List.mem_cons_self _ _ | apply List.mem_cons_of_mem),
      ⟨_, _, by repeat (first | exact List.mem_cons_self _ _ | apply List.mem_cons_of_mem)⟩,
      ⟨_, _, by repeat (first | exact List.mem_cons_self _ _ | apply List.mem_cons_of_mem)⟩,
      by repeat (first | exact List.mem_cons_self _ _ | apply List.mem_cons_of_mem),
      by repeat (first | exact List.mem_cons_self _ _ | apply List.mem_cons_of_mem),
      rfl, rfl⟩
  | videoCodec hpop hpc hstats hvcodec =>
    rw [hpop] at hvpresent
    rw [show ((_, _), _).1.1 = _ from rfl, hvcodec] at hvpresent
    cases hvpresent
  | audioCodec hpop hpc hstats hvcodec hvssrc hvtrack hvadd hacodec =>
    rw [hpop] at hapresent
    rw [show ((_, _), _).1.1 = _ from rfl, hacodec] at hapresent
    cases hapresent
  | _ =>
    exfalso
    simp [Event.failure, Except.goError, Event.call] at hcalls

/-! ## Claims on `Setup` -/

/-- C5: whatever the library does, no call of the trace but the last has failed, so
nothing is invoked after a failing step; if the last call failed, `Setup` returns a
nil answer with exactly that step's error; an error returned by `Setup` is the error
of the last call made; and the calls made follow the order of the body of `Setup`,
each made at most once. -/
theorem Setup_first_failure_returned {σ : Type} (lib : Lib σ) (m : WebRTCStreamer)
    (offer : SessionDescription) (s : σ) :
    (∀ e ∈ (m.Setup lib offer s).trace.dropLast, e.failure = none) ∧
    (∀ e err, (m.Setup lib offer s).trace.getLast? = some e → e.failure = some err →
        (m.Setup lib offer s).result = .error err) ∧
    (∀ err, (m.Setup lib offer s).result = .error err →
        ∃ e, (m.Setup lib offer s).trace.getLast? = some e ∧ e.failure = some err) ∧
    (m.Setup lib offer s).trace.map Event.call <+: SetupCalls := by
  have hrun := Setup_run lib m offer s
  generalize m.Setup lib offer s = o at hrun ⊢
  cases hrun <;> refine ⟨?_, ?_, ?_, ?_⟩
  all_goals first
    | (intro e err he
       simp only [List.getLast?_cons_cons, List.getLast?_singleton, Option.some.injEq] at he
       subst he
       simp [Event.failure, Except.goError])
    | simp [Event.failure, Except.goError, Event.call, SetupCalls]

/-- Witness for C5: with a library whose `SetRemoteDescription` fails, `Setup`
returns that very error and the trace stops at that call, the thirteenth. -/
theorem Setup_first_failure_returned_witness :
    ((⟨none, none, none⟩ : WebRTCStreamer).Setup (demoLib true (some (errors.New "bad offer")))
        ⟨1, "H264+Opus"⟩ 0).result = .error (errors.New "bad offer") ∧
    ((⟨none, none, none⟩ : WebRTCStreamer).Setup (demoLib true (some (errors.New "bad offer")))
        ⟨1, "H264+Opus"⟩ 0).trace.map Event.call = SetupCalls.take 13 :=
  ⟨(Setup_first_failure_returned (demoLib true (some (errors.New "bad offer")))
      ⟨none, none, none⟩ ⟨1, "H264+Opus"⟩ 0).2.1
      (.SetRemoteDescription ⟨0⟩ ⟨1, "H264+Opus"⟩ (some (errors.New "bad offer")))
      (errors.New "bad offer") rfl rfl, rfl⟩

/-- C3: when the engine populated from the offer holds no video codec named
`lib.H264` and connection creation succeeds, `Setup` returns the codec-not-found
error for that name (and so a nil answer); the trace holds no `NewTrack` and no
`AddTransceiverFromTrack` call, no transceiver is attached, and `VideoTrack` and
`AudioTrack` are unchanged.  Nothing is asked of the audio codecs. -/
theorem Setup_video_codec_missing {σ : Type} (lib : Lib σ) (m : WebRTCStreamer)
    (offer : SessionDescription) (s : σ)
    (hvideo : ∀ c ∈ (lib.PopulateFromSDP MediaEngine.zero offer s).1.1.GetCodecsByKind
        .RTPCodecTypeVideo, c.Name ≠ lib.H264)
    (hconn : ∀ e ∈ (m.Setup lib offer s).trace, e.call = .NewPeerConnection → e.failure = none) :
    (m.Setup lib offer s).result =
        .error (errors.New ("No codec of type " ++ lib.H264 ++ " found")) ∧
    (∀ e ∈ (m.Setup lib offer s).trace, ∀ label, e.call ≠ .NewTrack label) ∧
    (∀ e ∈ (m.Setup lib offer s).trace, e.call ≠ .AddTransceiverFromTrack) ∧
    transceivers (m.Setup lib offer s).trace = [] ∧
    (m.Setup lib offer s).m.VideoTrack = m.VideoTrack ∧
    (m.Setup lib offer s).m.AudioTrack = m.AudioTrack := by
  have habsent := findCodecOfType_absent _ _ _ hvideo
  have hrun := Setup_run lib m offer s
  generalize m.Setup lib offer s = o at hrun hconn ⊢
  cases hrun <;>
    simp_all [Event.failure, Except.goError, Event.call, transceivers]

/-- Witness for C3: the offer declares `{video: "VP8", audio: "Opus"}`; the audio
codec matches, yet `Setup` fails on the video codec. -/
theorem Setup_video_codec_missing_witness :
    ((⟨none, none, none⟩ : WebRTCStreamer).Setup (demoLib true none) ⟨1, "VP8+Opus"⟩ 0).result =
        .error (errors.New "No codec of type H264 found") ∧
    (∃ c ∈ (demoParse ⟨1, "VP8+Opus"⟩).1.GetCodecsByKind .RTPCodecTypeAudio, c.Name = "Opus") ∧
    transceivers ((⟨none, none, none⟩ : WebRTCStreamer).Setup (demoLib true none)
        ⟨1, "VP8+Opus"⟩ 0).trace = [] :=
  have h := Setup_video_codec_missing (demoLib true none) ⟨none, none, none⟩ ⟨1, "VP8+Opus"⟩ 0
    (by decide) (by decide)
  ⟨h.1, ⟨⟨"Opus", 111⟩, by decide, rfl⟩, h.2.2.2.1⟩

/-- C4, as amended: the audio codec name the program asks for is the value of
`webrtc.Opus`, which is `"opus"`, matched case-sensitively.  When the engine
populated from the offer holds a video codec named `"H264"` but no audio codec named
`"opus"`, and connection creation, video track creation and video transceiver
attachment succeed, `Setup` returns the codec-not-found error for `"opus"` after
exactly the first nine calls of its body: one transceiver is attached, the send-only
one of the video track created by this call, on the connection created by this call;
`VideoTrack` holds that track, `AudioTrack` is unchanged, and the trace holds no
audio `NewTrack`, no `SetRemoteDescription`, no `CreateAnswer` and no
`SetLocalDescription` call. -/
theorem Setup_opus_missing {σ : Type} (lib : Lib σ) (m : WebRTCStreamer)
    (offer : SessionDescription) (s : σ)
    (hH264 : lib.H264 = "H264") (hOpus : lib.Opus = "opus")
    (hvideo : ∃ c ∈ (lib.PopulateFromSDP MediaEngine.zero offer s).1.1.GetCodecsByKind
        .RTPCodecTypeVideo, c.Name = "H264")
    (haudio : ∀ c ∈ (lib.PopulateFromSDP MediaEngine.zero offer s).1.1.GetCodecsByKind
        .RTPCodecTypeAudio, c.Name ≠ "opus")
    (hsteps : ∀ e ∈ (m.Setup lib offer s).trace,
        e.call = .NewPeerConnection ∨ e.call = .NewTrack "video" ∨
          e.call = .AddTransceiverFromTrack → e.failure = none) :
    (m.Setup lib offer s).result = .error (errors.New "No codec of type opus found") ∧
    (m.Setup lib offer s).trace.map Event.call = SetupCalls.take 9 ∧
    (∃ pc videoTrack payloadType ssrc,
        Event.NewPeerConnection setupConfig (.ok pc) ∈ (m.Setup lib offer s).trace ∧
        Event.NewTrack pc payloadType ssrc "video" "video" (.ok videoTrack) ∈
          (m.Setup lib offer s).trace ∧
        transceivers (m.Setup lib offer s).trace =
          [(pc, videoTrack, ⟨.RTPTransceiverDirectionSendonly⟩)] ∧
        (m.Setup lib offer s).m.peerConnection = some pc ∧
        (m.Setup lib offer s).m.VideoTrack = some videoTrack) ∧
    (m.Setup lib offer s).m.AudioTrack = m.AudioTrack ∧
    (∀ e ∈ (m.Setup lib offer s).trace,
        e.call ≠ .NewTrack "audio" ∧ e.call ≠ .SetRemoteDescription ∧
          e.call ≠ .CreateAnswer ∧ e.call ≠ .SetLocalDescription) := by
  have h := Setup_without_audio_codec lib m offer s (hH264 ▸ hvideo) (hOpus ▸ haudio) hsteps
  refine ⟨?_, h.2⟩
  rw [h.1, hOpus]
  rfl

/-- Witness for C4, as amended: the offer registers the audio codec under the name
`"Opus"`; no audio codec is named `"opus"`, and `Setup` fails on the audio codec. -/
theorem Setup_opus_missing_witness :
    ((⟨none, none, none⟩ : WebRTCStreamer).Setup pionLib ⟨1, "H264+Opus"⟩ 0).result =
        .error (errors.New "No codec of type opus found") ∧
    ((⟨none, none, none⟩ : WebRTCStreamer).Setup pionLib ⟨1, "H264+Opus"⟩ 0).m =
        ⟨some ⟨0⟩, some ⟨1⟩, none⟩ :=
  ⟨(Setup_opus_missing pionLib ⟨none, none, none⟩ ⟨1, "H264+Opus"⟩ 0 rfl rfl
      ⟨⟨"H264", 102⟩, by decide, rfl⟩ (by decide) (by decide)).1, rfl⟩

/-- Counterexample for C4: with the program's constant `webrtc.Opus = "opus"`, an
offer that registers the codecs `{video: "H264", audio: "opus"}` holds a video codec
named `"H264"` and no audio codec named `"Opus"`, and no call fails; yet `Setup`
returns an answer and a nil error, not the codec-not-found error for `"Opus"`, and
both transceivers are attached. -/
theorem Setup_opus_missing_counterexample :
    pionLib.H264 = "H264" ∧ pionLib.Opus = "opus" ∧
    (∃ c ∈ (pionLib.PopulateFromSDP MediaEngine.zero ⟨1, "H264+opus"⟩ 0).1.1.GetCodecsByKind
        .RTPCodecTypeVideo, c.Name = "H264") ∧
    (∀ c ∈ (pionLib.PopulateFromSDP MediaEngine.zero ⟨1, "H264+opus"⟩ 0).1.1.GetCodecsByKind
        .RTPCodecTypeAudio, c.Name ≠ "Opus") ∧
    (∀ e ∈ ((⟨none, none, none⟩ : WebRTCStreamer).Setup pionLib ⟨1, "H264+opus"⟩ 0).trace,
        e.failure = none) ∧
    ((⟨none, none, none⟩ : WebRTCStreamer).Setup pionLib ⟨1, "H264+opus"⟩ 0).result =
        .ok ⟨2, "answer"⟩ ∧
    ((⟨none, none, none⟩ : WebRTCStreamer).Setup pionLib ⟨1, "H264+opus"⟩ 0).result ≠
        .error (errors.New "No codec of type Opus found") ∧
    transceivers ((⟨none, none, none⟩ : WebRTCStreamer).Setup pionLib
        ⟨1, "H264+opus"⟩ 0).trace =
      [(⟨0⟩, ⟨1⟩, ⟨.RTPTransceiverDirectionSendonly⟩),
       (⟨0⟩, ⟨2⟩, ⟨.RTPTransceiverDirectionSendonly⟩)] :=
  ⟨rfl, rfl, ⟨⟨"H264", 102⟩, by decide, rfl⟩, by decide, by decide, rfl,
    fun h => Except.noConfusion h, rfl⟩

/-- C6, as amended: the audio codec name the program asks for is the value of
`webrtc.Opus`, which is `"opus"`, matched case-sensitively.  When the engine
populated from the offer holds a video codec named `"H264"` and an audio codec named
`"opus"`, and no library call of the run fails, `Setup` makes all fifteen calls of
its body in order and returns, with a nil error, the description that `CreateAnswer`
produced and that was passed to `SetLocalDescription`; exactly two transceivers are
attached, both send-only, on the connection created by this call: first the one of
the video track created by this call, then the one of the audio track created by
this call. -/
theorem Setup_opus_success {σ : Type} (lib : Lib σ) (m : WebRTCStreamer)
    (offer : SessionDescription) (s : σ)
    (hH264 : lib.H264 = "H264") (hOpus : lib.Opus = "opus")
    (hvideo : ∃ c ∈ (lib.PopulateFromSDP MediaEngine.zero offer s).1.1.GetCodecsByKind
        .RTPCodecTypeVideo, c.Name = "H264")
    (haudio : ∃ c ∈ (lib.PopulateFromSDP MediaEngine.zero offer s).1.1.GetCodecsByKind
        .RTPCodecTypeAudio, c.Name = "opus")
    (hcalls : ∀ e ∈ (m.Setup lib offer s).trace,
        (∀ kind, e.call ≠ .findCodecOfType kind) → e.failure = none) :
    ∃ answer pc videoTrack audioTrack,
      (m.Setup lib offer s).result = .ok answer ∧
      (m.Setup lib offer s).trace.map Event.call = SetupCalls ∧
      Event.NewPeerConnection setupConfig (.ok pc) ∈ (m.Setup lib offer s).trace ∧
      (∃ payloadType ssrc, Event.NewTrack pc payloadType ssrc "video" "video" (.ok videoTrack) ∈
          (m.Setup lib offer s).trace) ∧
      (∃ payloadType ssrc, Event.NewTrack pc payloadType ssrc "audio" "audio" (.ok audioTrack) ∈
          (m.Setup lib offer s).trace) ∧
      Event.CreateAnswer pc (.ok answer) ∈ (m.Setup lib offer s).trace ∧
      Event.SetLocalDescription pc answer none ∈ (m.Setup lib offer s).trace ∧
      transceivers (m.Setup lib offer s).trace =
        [(pc, videoTrack, ⟨.RTPTransceiverDirectionSendonly⟩),
         (pc, audioTrack, ⟨.RTPTransceiverDirectionSendonly⟩)] ∧
      (m.Setup lib offer s).m = ⟨some pc, some videoTrack, some audioTrack⟩ :=
  Setup_with_both_codecs lib m offer s (hH264 ▸ hvideo) (hOpus ▸ haudio) hcalls

/-- Witness for C6, as amended: the offer registers the codecs
`{video: "H264", audio: "opus"}` and every library call succeeds. -/
theorem Setup_opus_success_witness :
    ∃ answer pc videoTrack audioTrack,
      ((⟨none, none, none⟩ : WebRTCStreamer).Setup pionLib ⟨1, "H264+opus"⟩ 0).result =
        .ok answer ∧
      transceivers ((⟨none, none, none⟩ : WebRTCStreamer).Setup pionLib
        ⟨1, "H264+opus"⟩ 0).trace =
        [(pc, videoTrack, ⟨.RTPTransceiverDirectionSendonly⟩),
         (pc, audioTrack, ⟨.RTPTransceiverDirectionSendonly⟩)] :=
  have ⟨answer, pc, videoTrack, audioTrack, h⟩ :=
    Setup_opus_success pionLib ⟨none, none, none⟩ ⟨1, "H264+opus"⟩ 0 rfl rfl
      ⟨⟨"H264", 102⟩, by decide, rfl⟩ ⟨⟨"opus", 111⟩, by decide, rfl⟩
      (fun e he _ => (by decide : ∀ e ∈ ((⟨none, none, none⟩ : WebRTCStreamer).Setup
        pionLib ⟨1, "H264+opus"⟩ 0).trace, e.failure = none) e he)
  ⟨answer, pc, videoTrack, audioTrack, h.1, h.2.2.2.2.2.2.2.1⟩

/-- Counterexample for C6: with the program's constant `webrtc.Opus = "opus"`, an
offer that registers the codecs `{video: "H264", audio: "Opus"}` holds a video codec
named `"H264"` and an audio codec named `"Opus"`, and every library call succeeds;
yet `Setup` returns a nil answer with the codec-not-found error for `"opus"`, and
only the video transceiver is attached. -/
theorem Setup_opus_success_counterexample :
    pionLib.H264 = "H264" ∧ pionLib.Opus = "opus" ∧
    (∃ c ∈ (pionLib.PopulateFromSDP MediaEngine.zero ⟨1, "H264+Opus"⟩ 0).1.1.GetCodecsByKind
        .RTPCodecTypeVideo, c.Name = "H264") ∧
    (∃ c ∈ (pionLib.PopulateFromSDP MediaEngine.zero ⟨1, "H264+Opus"⟩ 0).1.1.GetCodecsByKind
        .RTPCodecTypeAudio, c.Name = "Opus") ∧
    (∀ e ∈ ((⟨none, none, none⟩ : WebRTCStreamer).Setup pionLib ⟨1, "H264+Opus"⟩ 0).trace,
        (∀ kind, e.call ≠ .findCodecOfType kind) → e.failure = none) ∧
    ((⟨none, none, none⟩ : WebRTCStreamer).Setup pionLib ⟨1, "H264+Opus"⟩ 0).result =
        .error (errors.New "No codec of type opus found") ∧
    (∀ answer, ((⟨none, none, none⟩ : WebRTCStreamer).Setup pionLib
        ⟨1, "H264+Opus"⟩ 0).result ≠ .ok answer) ∧
    transceivers ((⟨none, none, none⟩ : WebRTCStreamer).Setup pionLib
        ⟨1, "H264+Opus"⟩ 0).trace =
      [(⟨0⟩, ⟨1⟩, ⟨.RTPTransceiverDirectionSendonly⟩)] :=
  ⟨rfl, rfl, ⟨⟨"H264", 102⟩, by decide, rfl⟩, ⟨⟨"Opus", 111⟩, by decide, rfl⟩,
    fun e he hkind => (by decide : ∀ e ∈ ((⟨none, none, none⟩ : WebRTCStreamer).Setup
      pionLib ⟨1, "H264+Opus"⟩ 0).trace,
        e.call ≠ .findCodecOfType .RTPCodecTypeVideo →
        e.call ≠ .findCodecOfType .RTPCodecTypeAudio → e.failure = none) e he
      (hkind _) (hkind _),
    rfl, fun _ h => Except.noConfusion h, rfl⟩

/-- C7, as amended: on a streamer that starts with no tracks, a successful `Setup`
leaves both tracks set; whether or not `Setup` succeeded, `VideoTrack` holds a track
exactly when the video track creation of this call returned it, and `AudioTrack`
exactly when the audio track creation of this call returned it (nothing is rolled
back on a later failure); and `AudioTrack` is set only if `VideoTrack` is. -/
theorem Setup_tracks_follow_creation {σ : Type} (lib : Lib σ) (m : WebRTCStreamer)
    (offer : SessionDescription) (s : σ) (hvideo : m.VideoTrack = none)
    (haudio : m.AudioTrack = none) :
    ((∃ answer, (m.Setup lib offer s).result = .ok answer) →
        ∃ videoTrack audioTrack, (m.Setup lib offer s).m.VideoTrack = some videoTrack ∧
          (m.Setup lib offer s).m.AudioTrack = some audioTrack) ∧
    (∀ track, (m.Setup lib offer s).m.VideoTrack = some track ↔
        ∃ pc payloadType ssrc, Event.NewTrack pc payloadType ssrc "video" "video" (.ok track) ∈
          (m.Setup lib offer s).trace) ∧
    (∀ track, (m.Setup lib offer s).m.AudioTrack = some track ↔
        ∃ pc payloadType ssrc, Event.NewTrack pc payloadType ssrc "audio" "audio" (.ok track) ∈
          (m.Setup lib offer s).trace) ∧
    ((m.Setup lib offer s).m.AudioTrack ≠ none → (m.Setup lib offer s).m.VideoTrack ≠ none) := by
  have hrun := Setup_run lib m offer s
  generalize m.Setup lib offer s = o at hrun ⊢
  cases hrun <;> simp [hvideo, haudio]
  all_goals first
    | exact fun _ => eq_comm
    | exact ⟨fun _ => eq_comm, fun _ => eq_comm⟩

/-- Witness for C7, as amended: on a fresh streamer, with a library whose
`SetRemoteDescription` fails, both tracks are those the two `NewTrack` calls
returned. -/
theorem Setup_tracks_follow_creation_witness :
    ((⟨none, none, none⟩ : WebRTCStreamer).Setup (demoLib true (some (errors.New "bad offer")))
      ⟨1, "H264+Opus"⟩ 0).m.VideoTrack = some ⟨1⟩ :=
  ((Setup_tracks_follow_creation (demoLib true (some (errors.New "bad offer")))
      ⟨none, none, none⟩ ⟨1, "H264+Opus"⟩ 0 rfl rfl).2.1 ⟨1⟩).mpr
    ⟨⟨0⟩, 102, 4243,
      by repeat (first | exact List.mem_cons_self _ _ | apply List.mem_cons_of_mem)⟩

/-- Counterexample for C7: on a fresh streamer, with the offer
`{video: "H264", audio: "Opus"}` and a library whose `SetRemoteDescription` fails,
`Setup` returns that error although both `VideoTrack` and `AudioTrack` are set: the
tracks are not both nil after the failure, and "both non-nil" does not imply that
`Setup` succeeded. -/
theorem Setup_track_invariant_counterexample :
    ((⟨none, none, none⟩ : WebRTCStreamer).Setup (demoLib true (some (errors.New "bad offer")))
        ⟨1, "H264+Opus"⟩ 0).result = .error (errors.New "bad offer") ∧
    ((⟨none, none, none⟩ : WebRTCStreamer).Setup (demoLib true (some (errors.New "bad offer")))
        ⟨1, "H264+Opus"⟩ 0).m = ⟨some ⟨0⟩, some ⟨1⟩, some ⟨2⟩⟩ ∧
    ¬ ((((⟨none, none, none⟩ : WebRTCStreamer).Setup
          (demoLib true (some (errors.New "bad offer"))) ⟨1, "H264+Opus"⟩ 0).m.VideoTrack ≠ none ∧
        ((⟨none, none, none⟩ : WebRTCStreamer).Setup
          (demoLib true (some (errors.New "bad offer"))) ⟨1, "H264+Opus"⟩ 0).m.AudioTrack ≠ none) ↔
      ∃ answer, ((⟨none, none, none⟩ : WebRTCStreamer).Setup
          (demoLib true (some (errors.New "bad offer"))) ⟨1, "H264+Opus"⟩ 0).result =
            .ok answer) := by
  refine ⟨rfl, rfl, ?_⟩
  intro h
  obtain ⟨answer, hanswer⟩ := h.mp ⟨by decide, by decide⟩
  exact Except.noConfusion hanswer

/-- C9: replacing the result of the statistics lookup by any other leaves the
returned pair, the streamer, the library state, the attached transceivers and every
call but the lookup and the registration as they were; the lookup and the
registration are never the last call made, so `Setup` does not return at them; the
callback registered is the observer over the identifier the lookup yielded, or over
the placeholder `"unknoown"` when it yielded none; and for every state value the
observer's log line is made of that identifier and the label of the state. -/
theorem Setup_observer_registration {σ : Type} (lib : Lib σ)
    (lookup : PeerConnection → σ → PeerConnectionStats × Bool) (m : WebRTCStreamer)
    (offer : SessionDescription) (s : σ) :
    ((m.Setup (lib.replaceStats lookup) offer s).result = (m.Setup lib offer s).result ∧
      (m.Setup (lib.replaceStats lookup) offer s).m = (m.Setup lib offer s).m ∧
      (m.Setup (lib.replaceStats lookup) offer s).lib = (m.Setup lib offer s).lib ∧
      transceivers (m.Setup (lib.replaceStats lookup) offer s).trace =
        transceivers (m.Setup lib offer s).trace ∧
      (m.Setup (lib.replaceStats lookup) offer s).trace.take 2 =
        (m.Setup lib offer s).trace.take 2 ∧
      (m.Setup (lib.replaceStats lookup) offer s).trace.drop 4 =
        (m.Setup lib offer s).trace.drop 4) ∧
    (∀ e, (m.Setup lib offer s).trace.getLast? = some e →
      e.call ≠ .GetConnectionStats ∧ e.call ≠ .OnICEConnectionStateChange) ∧
    (∀ pc stats, Event.GetConnectionStats pc stats true ∈ (m.Setup lib offer s).trace →
      Event.OnICEConnectionStateChange pc (observer lib stats) ∈
        (m.Setup lib offer s).trace) ∧
    (∀ pc stats, Event.GetConnectionStats pc stats false ∈ (m.Setup lib offer s).trace →
      Event.OnICEConnectionStateChange pc (observer lib ⟨"unknoown"⟩) ∈
        (m.Setup lib offer s).trace) ∧
    (∀ pc f, Event.OnICEConnectionStateChange pc f ∈ (m.Setup lib offer s).trace →
      ∃ stats ok, Event.GetConnectionStats pc stats ok ∈ (m.Setup lib offer s).trace ∧
        f = observer lib (if ok then stats else ⟨"unknoown"⟩)) ∧
    (∀ stats state, observer lib stats state =
      "State of " ++ stats.ID ++ ": " ++ lib.ICEConnectionStateString state ++ " \n") := by
  have hrun := Setup_run lib m offer s
  generalize m.Setup lib offer s = o at hrun ⊢
  refine ⟨?_, ?_, ?_, ?_, ?_, fun _ _ => rfl⟩
  · cases hrun <;>
      simp [WebRTCStreamer.Setup, Lib.replaceStats, setupConfig_literal, transceivers, *]
  · intro e he
    cases hrun <;>
      (simp only [List.getLast?_cons_cons, List.getLast?_singleton, Option.some.injEq] at he
       subst he
       simp [Event.call])
  · cases hrun <;> simp <;> intro h <;> simp [h]
  · cases hrun <;> simp <;> intro h <;> simp [h]
  · intro pc f h
    cases hrun <;> simp at h
    all_goals
      obtain ⟨rfl, rfl⟩ := h
      refine ⟨_, _,
        by repeat (first | exact List.mem_cons_self _ _ | apply List.mem_cons_of_mem), ?_⟩
      split <;> simp_all

/-- Witness for C9: the lookup of the example library yields no identifier, so the
observer is registered with the placeholder and logs it, also for the state value
99 that the library has no label for; making the lookup yield `"pc-7"` changes
nothing in what `Setup` returns. -/
theorem Setup_observer_registration_witness :
    ((⟨none, none, none⟩ : WebRTCStreamer).Setup
        ((demoLib false none).replaceStats (fun _ _ => (⟨"pc-7"⟩, true)))
        ⟨1, "H264+Opus"⟩ 0).result =
      ((⟨none, none, none⟩ : WebRTCStreamer).Setup (demoLib false none)
        ⟨1, "H264+Opus"⟩ 0).result ∧
    Event.OnICEConnectionStateChange ⟨0⟩ (observer (demoLib false none) ⟨"unknoown"⟩) ∈
      ((⟨none, none, none⟩ : WebRTCStreamer).Setup (demoLib false none)
        ⟨1, "H264+Opus"⟩ 0).trace ∧
    observer (demoLib false none) ⟨"unknoown"⟩ 99 = "State of unknoown: unknown \n" :=
  have h := Setup_observer_registration (demoLib false none) (fun _ _ => (⟨"pc-7"⟩, true))
    ⟨none, none, none⟩ ⟨1, "H264+Opus"⟩ 0
  ⟨h.1.1, h.2.2.2.1 ⟨0⟩ ⟨""⟩
    (by repeat (first | exact List.mem_cons_self _ _ | apply List.mem_cons_of_mem)),
    by decide⟩

/-- C10: replacing the error result of `PopulateFromSDP` by any other (none
included) leaves the returned pair, the streamer, the library state and every call
after the parse as they were, so a parse error is never returned and never stops
`Setup`; and when the parse reports an error and the engine holds no video codec
named `lib.H264`, a call whose connection creation succeeds returns the
codec-not-found error for that name, after the connection has been created. -/
theorem Setup_ignores_parse_error {σ : Type} (lib : Lib σ)
    (perr : SessionDescription → σ → Option GoError) (m : WebRTCStreamer)
    (offer : SessionDescription) (s : σ) :
    ((m.Setup (lib.replaceParseError perr) offer s).result = (m.Setup lib offer s).result ∧
      (m.Setup (lib.replaceParseError perr) offer s).m = (m.Setup lib offer s).m ∧
      (m.Setup (lib.replaceParseError perr) offer s).lib = (m.Setup lib offer s).lib ∧
      (m.Setup (lib.replaceParseError perr) offer s).trace.tail =
        (m.Setup lib offer s).trace.tail) ∧
    (m.Setup lib offer s).trace.head? =
      some (.PopulateFromSDP offer (lib.PopulateFromSDP MediaEngine.zero offer s).1.2) ∧
    (∀ parseErr pc, (lib.PopulateFromSDP MediaEngine.zero offer s).1.2 = some parseErr →
      (∀ c ∈ (lib.PopulateFromSDP MediaEngine.zero offer s).1.1.GetCodecsByKind
        .RTPCodecTypeVideo, c.Name ≠ lib.H264) →
      Event.NewPeerConnection setupConfig (.ok pc) ∈ (m.Setup lib offer s).trace →
      (m.Setup lib offer s).result =
        .error (errors.New ("No codec of type " ++ lib.H264 ++ " found"))) := by
  have hrun := Setup_run lib m offer s
  generalize m.Setup lib offer s = o at hrun ⊢
  refine ⟨?_, ?_, ?_⟩
  · cases hrun <;>
      simp [WebRTCStreamer.Setup, Lib.replaceParseError, setupConfig_literal, *] <;> rfl
  · cases hrun <;> simp [*]
  · intro parseErr pc _ hvideo hconn
    have habsent := findCodecOfType_absent _ _ _ hvideo
    clear hvideo
    cases hrun <;> simp_all

/-- Witness for C10: a malformed offer makes the parse of the example library report
an error and register no codec; `Setup` creates the connection and returns the
codec-not-found error for `"H264"`. -/
theorem Setup_ignores_parse_error_witness :
    (demoParse ⟨1, "garbage"⟩).2 = some (errors.New "malformed offer") ∧
    ((⟨none, none, none⟩ : WebRTCStreamer).Setup (demoLib true none) ⟨1, "garbage"⟩ 0).result =
      .error (errors.New "No codec of type H264 found") :=
  ⟨rfl, (Setup_ignores_parse_error (demoLib true none) (fun _ _ => none) ⟨none, none, none⟩
    ⟨1, "garbage"⟩ 0).2.2 (errors.New "malformed offer") ⟨0⟩ rfl (by decide)
    (by repeat (first | exact List.mem_cons_self _ _ | apply List.mem_cons_of_mem))⟩


/-- The state of the example library only grows. -/
theorem demoLib_step_le (statsOk : Bool) (remoteErr : Option GoError) {a b : Nat}
    (h : (demoLib statsOk remoteErr).Step a b) : a ≤ b := by
  cases h with
  | OnICEConnectionStateChange => exact Nat.le_refl _
  | _ h =>
    simp [demoLib] at h
    omega

/-- The example library hands out fresh handles: the handles handed out before
state `n` are those below `n`. -/
theorem demoLib_fresh (statsOk : Bool) (remoteErr : Option GoError) :
    (demoLib statsOk remoteErr).Fresh (fun n pc => pc.handle < n)
      (fun n track => track.handle < n) where
  pcs_mono := fun h _ hlt => Nat.lt_of_lt_of_le hlt (demoLib_step_le _ _ h)
  tracks_mono := fun h _ hlt => Nat.lt_of_lt_of_le hlt (demoLib_step_le _ _ h)
  newPeerConnection := by
    intro api config a pc b h
    simp [demoLib] at h
    obtain ⟨rfl, rfl⟩ := h
    simp
  newTrack := by
    intro pc payloadType ssrc id label a track b h
    simp [demoLib] at h
    obtain ⟨rfl, rfl⟩ := h
    simp

/-- C8, as amended: after a first successful `Setup`, a second `Setup` on the same
streamer is never rejected for coming second: it returns what it would return on any
other streamer, makes the same calls and leaves the same library state, and an error
it returns is the error of the last call it made.  When the second call succeeds too
and the library hands out fresh handles, both calls have succeeded on isolated
tracks: the second call has created a connection and two tracks that differ from
those of the first call, its two transceivers sit on its own connection, and the
fields of the streamer hold the connection and tracks of the second call only. -/
theorem Setup_second_call {σ : Type} (lib : Lib σ) (pcs : σ → PeerConnection → Prop)
    (tracks : σ → Track → Prop) (hfresh : lib.Fresh pcs tracks) (m : WebRTCStreamer)
    (offer1 offer2 : SessionDescription) (s : σ) (answer1 : SessionDescription)
    (hfirst : (m.Setup lib offer1 s).result = .ok answer1) :
    (∀ m0 : WebRTCStreamer,
      ((m.Setup lib offer1 s).m.Setup lib offer2 (m.Setup lib offer1 s).lib).result =
        (m0.Setup lib offer2 (m.Setup lib offer1 s).lib).result ∧
      ((m.Setup lib offer1 s).m.Setup lib offer2 (m.Setup lib offer1 s).lib).trace =
        (m0.Setup lib offer2 (m.Setup lib offer1 s).lib).trace ∧
      ((m.Setup lib offer1 s).m.Setup lib offer2 (m.Setup lib offer1 s).lib).lib =
        (m0.Setup lib offer2 (m.Setup lib offer1 s).lib).lib) ∧
    (∀ err,
      ((m.Setup lib offer1 s).m.Setup lib offer2 (m.Setup lib offer1 s).lib).result =
        .error err →
      ∃ e, ((m.Setup lib offer1 s).m.Setup lib offer2
          (m.Setup lib offer1 s).lib).trace.getLast? = some e ∧ e.failure = some err) ∧
    (∀ answer2,
      ((m.Setup lib offer1 s).m.Setup lib offer2 (m.Setup lib offer1 s).lib).result =
        .ok answer2 →
      ∃ pc1 videoTrack1 audioTrack1 pc2 videoTrack2 audioTrack2,
        (m.Setup lib offer1 s).m = ⟨some pc1, some videoTrack1, some audioTrack1⟩ ∧
        transceivers (m.Setup lib offer1 s).trace =
          [(pc1, videoTrack1, ⟨.RTPTransceiverDirectionSendonly⟩),
           (pc1, audioTrack1, ⟨.RTPTransceiverDirectionSendonly⟩)] ∧
        ((m.Setup lib offer1 s).m.Setup lib offer2 (m.Setup lib offer1 s).lib).m =
          ⟨some pc2, some videoTrack2, some audioTrack2⟩ ∧
        transceivers ((m.Setup lib offer1 s).m.Setup lib offer2
            (m.Setup lib offer1 s).lib).trace =
          [(pc2, videoTrack2, ⟨.RTPTransceiverDirectionSendonly⟩),
           (pc2, audioTrack2, ⟨.RTPTransceiverDirectionSendonly⟩)] ∧
        pc2 ≠ pc1 ∧ videoTrack2 ≠ videoTrack1 ∧ videoTrack2 ≠ audioTrack1 ∧
        audioTrack2 ≠ videoTrack1 ∧ audioTrack2 ≠ audioTrack1 ∧
        videoTrack2 ≠ audioTrack2) := by
  refine ⟨?_, ?_, ?_⟩
  · intro m0
    have h := Setup_streamer_irrelevant lib (m.Setup lib offer1 s).m m0 offer2
      (m.Setup lib offer1 s).lib
    exact ⟨h.1, h.2.1, h.2.2.1⟩
  · intro err herr
    have hrun := Setup_run lib (m.Setup lib offer1 s).m offer2 (m.Setup lib offer1 s).lib
    generalize (m.Setup lib offer1 s).m.Setup lib offer2 (m.Setup lib offer1 s).lib = o
      at hrun herr ⊢
    cases hrun <;> simp_all [Event.failure, Except.goError]
  · intro answer2 hsecond
    obtain ⟨pc1, v1, a1, hm1, ht1, -, -, hp1, hv1, ha1⟩ :=
      Setup_success_fresh hfresh m offer1 s answer1 hfirst
    obtain ⟨pc2, v2, a2, hm2, ht2, hne, ⟨hp2, hv2, ha2⟩, -⟩ :=
      Setup_success_fresh hfresh (m.Setup lib offer1 s).m offer2 (m.Setup lib offer1 s).lib
        answer2 hsecond
    refine ⟨pc1, v1, a1, pc2, v2, a2, hm1, ht1, hm2, ht2, ?_, ?_, ?_, ?_, ?_, hne⟩
    · rintro rfl; exact hp2 hp1
    · rintro rfl; exact hv2 hv1
    · rintro rfl; exact hv2 ha1
    · rintro rfl; exact ha2 hv1
    · rintro rfl; exact ha2 ha1

/-- Witness for C8, as amended: two calls in a row with the offer
`{video: "H264", audio: "Opus"}` over the example library. -/
theorem Setup_second_call_witness :
    (((⟨none, none, none⟩ : WebRTCStreamer).Setup (demoLib true none) ⟨1, "H264+Opus"⟩ 0).m.Setup
        (demoLib true none) ⟨1, "H264+Opus"⟩
        ((⟨none, none, none⟩ : WebRTCStreamer).Setup (demoLib true none)
          ⟨1, "H264+Opus"⟩ 0).lib).result =
      ((⟨none, none, none⟩ : WebRTCStreamer).Setup (demoLib true none) ⟨1, "H264+Opus"⟩
        ((⟨none, none, none⟩ : WebRTCStreamer).Setup (demoLib true none)
          ⟨1, "H264+Opus"⟩ 0).lib).result ∧
    (((⟨none, none, none⟩ : WebRTCStreamer).Setup (demoLib true none) ⟨1, "H264+Opus"⟩ 0).m.Setup
        (demoLib true none) ⟨1, "H264+Opus"⟩
        ((⟨none, none, none⟩ : WebRTCStreamer).Setup (demoLib true none)
          ⟨1, "H264+Opus"⟩ 0).lib).m = ⟨some ⟨3⟩, some ⟨4⟩, some ⟨5⟩⟩ :=
  ⟨((Setup_second_call (demoLib true none) _ _ (demoLib_fresh true none) ⟨none, none, none⟩
      ⟨1, "H264+Opus"⟩ ⟨1, "H264+Opus"⟩ 0 ⟨2, "answer"⟩ rfl).1 ⟨none, none, none⟩).1, rfl⟩

/-- Counterexample for C8: over the example library the first call, with the offer
`{video: "H264", audio: "Opus"}`, succeeds; the second, with the offer
`{video: "VP8", audio: "Opus"}`, creates a new connection and then fails with the
codec-not-found error of its own video codec resolution.  So the two calls did not
both succeed, and the second was not rejected either: its error is the error of a
call it made, not one raised against the second negotiation as such.  The fields
then hold the connection of the second call and the tracks of the first. -/
theorem Setup_second_call_counterexample :
    ((⟨none, none, none⟩ : WebRTCStreamer).Setup (demoLib true none) ⟨1, "H264+Opus"⟩ 0).result =
      .ok ⟨2, "answer"⟩ ∧
    (((⟨none, none, none⟩ : WebRTCStreamer).Setup (demoLib true none) ⟨1, "H264+Opus"⟩ 0).m.Setup
        (demoLib true none) ⟨1, "VP8+Opus"⟩
        ((⟨none, none, none⟩ : WebRTCStreamer).Setup (demoLib true none)
          ⟨1, "H264+Opus"⟩ 0).lib).result =
      .error (errors.New "No codec of type H264 found") ∧
    Event.NewPeerConnection setupConfig (.ok ⟨3⟩) ∈
      (((⟨none, none, none⟩ : WebRTCStreamer).Setup (demoLib true none)
          ⟨1, "H264+Opus"⟩ 0).m.Setup (demoLib true none) ⟨1, "VP8+Opus"⟩
        ((⟨none, none, none⟩ : WebRTCStreamer).Setup (demoLib true none)
          ⟨1, "H264+Opus"⟩ 0).lib).trace ∧
    (∃ e ∈ (((⟨none, none, none⟩ : WebRTCStreamer).Setup (demoLib true none)
          ⟨1, "H264+Opus"⟩ 0).m.Setup (demoLib true none) ⟨1, "VP8+Opus"⟩
        ((⟨none, none, none⟩ : WebRTCStreamer).Setup (demoLib true none)
          ⟨1, "H264+Opus"⟩ 0).lib).trace,
      e.failure = some (errors.New "No codec of type H264 found")) ∧
    (((⟨none, none, none⟩ : WebRTCStreamer).Setup (demoLib true none) ⟨1, "H264+Opus"⟩ 0).m.Setup
        (demoLib true none) ⟨1, "VP8+Opus"⟩
        ((⟨none, none, none⟩ : WebRTCStreamer).Setup (demoLib true none)
          ⟨1, "H264+Opus"⟩ 0).lib).m = ⟨some ⟨3⟩, some ⟨1⟩, some ⟨2⟩⟩ ∧
    ¬ ((∃ answer2, (((⟨none, none, none⟩ : WebRTCStreamer).Setup (demoLib true none)
          ⟨1, "H264+Opus"⟩ 0).m.Setup (demoLib true none) ⟨1, "VP8+Opus"⟩
        ((⟨none, none, none⟩ : WebRTCStreamer).Setup (demoLib true none)
          ⟨1, "H264+Opus"⟩ 0).lib).result = .ok answer2) ∨
      (∃ err, (((⟨none, none, none⟩ : WebRTCStreamer).Setup (demoLib true none)
          ⟨1, "H264+Opus"⟩ 0).m.Setup (demoLib true none) ⟨1, "VP8+Opus"⟩
        ((⟨none, none, none⟩ : WebRTCStreamer).Setup (demoLib true none)
          ⟨1, "H264+Opus"⟩ 0).lib).result = .error err ∧
        ∀ e ∈ (((⟨none, none, none⟩ : WebRTCStreamer).Setup (demoLib true none)
          ⟨1, "H264+Opus"⟩ 0).m.Setup (demoLib true none) ⟨1, "VP8+Opus"⟩
        ((⟨none, none, none⟩ : WebRTCStreamer).Setup (demoLib true none)
          ⟨1, "H264+Opus"⟩ 0).lib).trace, e.failure ≠ some err)) := by
  have hmem : Event.findCodecOfType .RTPCodecTypeVideo "H264"
      (.error (errors.New "No codec of type H264 found")) ∈
      (((⟨none, none, none⟩ : WebRTCStreamer).Setup (demoLib true none)
          ⟨1, "H264+Opus"⟩ 0).m.Setup (demoLib true none) ⟨1, "VP8+Opus"⟩
        ((⟨none, none, none⟩ : WebRTCStreamer).Setup (demoLib true none)
          ⟨1, "H264+Opus"⟩ 0).lib).trace := by
    repeat (first | exact List.mem_cons_self _ _ | apply List.mem_cons_of_mem)
  refine ⟨rfl, rfl, ?_, ⟨_, hmem, rfl⟩, rfl, ?_⟩
  · repeat (first | exact List.mem_cons_self _ _ | apply List.mem_cons_of_mem)
  · rintro (⟨answer2, h⟩ | ⟨err, h, hall⟩)
    · exact Except.noConfusion h
    · have herr : errors.New "No codec of type H264 found" = err := Except.error.inj h
      exact hall _ hmem (by rw [← herr]; rfl)
